import Mathlib

/-!
Shallow embedding of the move-selection engine of the Tron agent
(`brain.py`) and of the move-string parsing helper of the local
visualizer (`visual_tron.py`).

Conventions of the embedding:
* A Python `state` dictionary becomes the structure `GameState`.  A field
  read with `state.get(k, default)` is modelled as an `Option` field read
  with `Option.getD default` when absence and the default can differ from
  every present value, and as the default value itself when Python treats
  the absent field and the default identically (`board` absent behaves
  exactly like `board = []`, so `board` is a plain list).
* Machine integers are `Int`.  Python `%` is floor-mod; every modulus the
  code reaches is positive, where floor-mod and Lean's `Int.emod` (`%`)
  agree, both yielding a result in `[0, modulus)`.
* Fallible operations (list indexing that can raise `IndexError`,
  `x % 0` raising `ZeroDivisionError`, dictionary lookup raising
  `KeyError`) return `Option`; `none` models a raised exception, which
  propagates through `Option.bind`.
-/

/-- The snapshot dictionary passed to `choose_move`.  The trail fields are
`Option` so that an absent field (`state.get` returning the default) is
representable; `turn_count` likewise (`state.get("turn_count", 0)`).
The remaining fields are present in the dictionary built by
`build_state_from_game` in `visual_tron.py` but are never read by
`choose_move`. -/
structure GameState where
  board : List (List Int)
  agent1_trail : Option (List (Int × Int))
  agent2_trail : Option (List (Int × Int))
  turn_count : Option Int
  agent1_length : Int
  agent2_length : Int
  agent1_alive : Bool
  agent2_alive : Bool
  agent1_boosts : Int
  agent2_boosts : Int

/-- Embedding of `DIRECTION_VECTORS` from `brain.py`: a dictionary mapping the four
direction names to `(dx, dy)` unit vectors; looking up any other key
raises `KeyError`, modelled by `none`. -/
def DIRECTION_VECTORS : String → Option (Int × Int)
  | "UP" => some (0, -1)
  | "DOWN" => some (0, 1)
  | "LEFT" => some (-1, 0)
  | "RIGHT" => some (1, 0)
  | _ => none

/-- Embedding of `_get_head_position` from `brain.py`: select the requesting player's
trail (`agent1_trail` when `player_number == 1`, `agent2_trail`
otherwise, both defaulting to the empty list when absent); an empty trail
yields `(0, 0)`, otherwise the head is the last trail element. -/
def getHeadPosition (state : GameState) (player_number : Int) : Int × Int :=
  let trail :=
    if player_number = 1 then state.agent1_trail.getD []
    else state.agent2_trail.getD []
  match trail.getLast? with
  | none => (0, 0)
  | some head => head

/-- Embedding of `_get_board_size` from `brain.py`: `(0, 0)` when the grid has no rows
or an empty first row, otherwise `(len(board[0]), len(board))`. -/
def getBoardSize (board : List (List Int)) : Nat × Nat :=
  if board = [] ∨ board.headD [] = [] then (0, 0)
  else ((board.headD []).length, board.length)

/-- Embedding of `_is_cell_safe` from `brain.py`.  `height == 0` short-circuits to
`True`; then `width = len(board[0])`, and `x % 0` would raise
`ZeroDivisionError` (modelled `none`); both coordinates are wrapped and
the cell is read — reading past the end of a short row raises
`IndexError` (modelled `none`).  A cell is safe iff its value is `0`. -/
def isCellSafe (board : List (List Int)) (x y : Int) : Option Bool :=
  let height := board.length
  if height = 0 then some true
  else
    let width := (board.headD []).length
    if width = 0 then none
    else
      let x2 := x % (width : Int)
      let y2 := y % (height : Int)
      match (board.get? y2.toNat).bind (fun row => row.get? x2.toNat) with
      | none => none
      | some cell => some (decide (cell = 0))

/-- The candidate cell tested for one direction in
`_choose_safe_direction`: the head plus the direction's unit vector,
each axis wrapped modulo the corresponding board dimension. -/
def candidateCell (width height : Nat) (head_x head_y dx dy : Int) :
    Int × Int :=
  ((head_x + dx) % (width : Int), (head_y + dy) % (height : Int))

/-- The `for direction_name in preferred_order` loop of
`_choose_safe_direction`: look the name up in `DIRECTION_VECTORS`
(a failed lookup raises `KeyError`), wrap the candidate cell, and return
the first name whose candidate is safe; when the list is exhausted,
fall back to `"RIGHT"`. -/
def chooseSafeLoop (board : List (List Int)) (width height : Nat)
    (head_x head_y : Int) : List String → Option String
  | [] => some "RIGHT"
  | direction_name :: rest =>
    match DIRECTION_VECTORS direction_name with
    | none => none
    | some (dx, dy) =>
      let c := candidateCell width height head_x head_y dx dy
      match isCellSafe board c.1 c.2 with
      | none => none
      | some safe =>
        if safe then some direction_name
        else chooseSafeLoop board width height head_x head_y rest

/-- Embedding of `_choose_safe_direction` from `brain.py`: return `"RIGHT"` on a
degenerate board, otherwise run the preference loop. -/
def chooseSafeDirection (board : List (List Int)) (head_x head_y : Int)
    (preferred_order : List String) : Option String :=
  let (width, height) := getBoardSize board
  if width = 0 ∨ height = 0 then some "RIGHT"
  else chooseSafeLoop board width height head_x head_y preferred_order

/-- The preference order selected from `turn % 4` in `choose_move`. -/
def preferredOrder (turn : Int) : List String :=
  let pattern := turn % 4
  if pattern = 0 then ["RIGHT", "DOWN", "UP", "LEFT"]
  else if pattern = 1 then ["DOWN", "LEFT", "RIGHT", "UP"]
  else if pattern = 2 then ["LEFT", "UP", "DOWN", "RIGHT"]
  else ["UP", "RIGHT", "LEFT", "DOWN"]

/-- Embedding of `choose_move` from `brain.py`.  `boosts_remaining` is accepted but
unused; an empty board yields `"RIGHT"` immediately; otherwise the head
and turn counter are read and the rotating preference order is handed to
`_choose_safe_direction`. -/
def choose_move (state : GameState) (boosts_remaining : Int)
    (player_number : Int) : Option String :=
  let board := state.board
  if board = [] then some "RIGHT"
  else
    let head := getHeadPosition state player_number
    let turn := (state.turn_count).getD 0
    chooseSafeDirection board head.1 head.2 (preferredOrder turn)

/-- The four directions, used only to quantify claims over direction
names. -/
inductive Dir4 : Type
  | up | down | left | right
deriving DecidableEq, Fintype

/-- The direction name token of a `Dir4`. -/
def dirName : Dir4 → String
  | .up => "UP"
  | .down => "DOWN"
  | .left => "LEFT"
  | .right => "RIGHT"

/-- The unit vector of a `Dir4`, matching `DIRECTION_VECTORS`. -/
def dirVec : Dir4 → Int × Int
  | .up => (0, -1)
  | .down => (0, 1)
  | .left => (-1, 0)
  | .right => (1, 0)

/-! Embedding of `move_str_to_direction_and_boost` from `visual_tron.py`.
Python string operations are modelled on `List Char`. -/

/-- Modelled from the spec: the `Direction` enumeration imported from
`case_closed_game.py` (a repository file not available here).  Per the
data model it has exactly the four members `UP`, `DOWN`, `LEFT`,
`RIGHT`. -/
inductive Direction : Type
  | UP | DOWN | LEFT | RIGHT
deriving DecidableEq

/-- Modelled from the spec: Python's `Direction[name]` enum lookup —
`some` member for a member name, `none` (a raised `KeyError`)
otherwise. -/
def directionByName : String → Option Direction
  | "UP" => some Direction.UP
  | "DOWN" => some Direction.DOWN
  | "LEFT" => some Direction.LEFT
  | "RIGHT" => some Direction.RIGHT
  | _ => none

/-- Code points Python's `str.isspace()` holds for (CPython 3.11,
Unicode 14.0) — exactly the characters the default `str.strip()`
removes. -/
def pyWhitespace : List Char :=
  [Char.ofNat 0x9, Char.ofNat 0xA, Char.ofNat 0xB, Char.ofNat 0xC,
   Char.ofNat 0xD, Char.ofNat 0x1C, Char.ofNat 0x1D, Char.ofNat 0x1E,
   Char.ofNat 0x1F, Char.ofNat 0x20, Char.ofNat 0x85, Char.ofNat 0xA0,
   Char.ofNat 0x1680, Char.ofNat 0x2000, Char.ofNat 0x2001, Char.ofNat 0x2002,
   Char.ofNat 0x2003, Char.ofNat 0x2004, Char.ofNat 0x2005, Char.ofNat 0x2006,
   Char.ofNat 0x2007, Char.ofNat 0x2008, Char.ofNat 0x2009, Char.ofNat 0x200A,
   Char.ofNat 0x2028, Char.ofNat 0x2029, Char.ofNat 0x202F, Char.ofNat 0x205F,
   Char.ofNat 0x3000]

/-- Whether Python's default `str.strip()` removes the character. -/
def isPySpace (c : Char) : Bool :=
  pyWhitespace.contains c

/-- Python `str.strip()`: drop leading and trailing whitespace. -/
def pyStrip (s : String) : String :=
  ⟨((s.data.dropWhile isPySpace).reverse.dropWhile isPySpace).reverse⟩

/-- Part 1 of `pyUpperTable`. -/
def pyUpperTable1 : List (Char × List Char) :=
  [(Char.ofNat 0x61, [Char.ofNat 0x41]),
   (Char.ofNat 0x62, [Char.ofNat 0x42]),
   (Char.ofNat 0x63, [Char.ofNat 0x43]),
   (Char.ofNat 0x64, [Char.ofNat 0x44]),
   (Char.ofNat 0x65, [Char.ofNat 0x45]),
   (Char.ofNat 0x66, [Char.ofNat 0x46]),
   (Char.ofNat 0x67, [Char.ofNat 0x47]),
   (Char.ofNat 0x68, [Char.ofNat 0x48]),
   (Char.ofNat 0x69, [Char.ofNat 0x49]),
   (Char.ofNat 0x6A, [Char.ofNat 0x4A]),
   (Char.ofNat 0x6B, [Char.ofNat 0x4B]),
   (Char.ofNat 0x6C, [Char.ofNat 0x4C]),
   (Char.ofNat 0x6D, [Char.ofNat 0x4D]),
   (Char.ofNat 0x6E, [Char.ofNat 0x4E]),
   (Char.ofNat 0x6F, [Char.ofNat 0x4F]),
   (Char.ofNat 0x70, [Char.ofNat 0x50]),
   (Char.ofNat 0x71, [Char.ofNat 0x51]),
   (Char.ofNat 0x72, [Char.ofNat 0x52]),
   (Char.ofNat 0x73, [Char.ofNat 0x53]),
   (Char.ofNat 0x74, [Char.ofNat 0x54]),
   (Char.ofNat 0x75, [Char.ofNat 0x55]),
   (Char.ofNat 0x76, [Char.ofNat 0x56]),
   (Char.ofNat 0x77, [Char.ofNat 0x57]),
   (Char.ofNat 0x78, [Char.ofNat 0x58]),
   (Char.ofNat 0x79, [Char.ofNat 0x59]),
   (Char.ofNat 0x7A, [Char.ofNat 0x5A]),
   (Char.ofNat 0xB5, [Char.ofNat 0x39C]),
   (Char.ofNat 0xDF, [Char.ofNat 0x53, Char.ofNat 0x53]),
   (Char.ofNat 0xE0, [Char.ofNat 0xC0]),
   (Char.ofNat 0xE1, [Char.ofNat 0xC1]),
   (Char.ofNat 0xE2, [Char.ofNat 0xC2]),
   (Char.ofNat 0xE3, [Char.ofNat 0xC3]),
   (Char.ofNat 0xE4, [Char.ofNat 0xC4]),
   (Char.ofNat 0xE5, [Char.ofNat 0xC5]),
   (Char.ofNat 0xE6, [Char.ofNat 0xC6]),
   (Char.ofNat 0xE7, [Char.ofNat 0xC7]),
   (Char.ofNat 0xE8, [Char.ofNat 0xC8]),
   (Char.ofNat 0xE9, [Char.ofNat 0xC9]),
   (Char.ofNat 0xEA, [Char.ofNat 0xCA]),
   (Char.ofNat 0xEB, [Char.ofNat 0xCB]),
   (Char.ofNat 0xEC, [Char.ofNat 0xCC]),
   (Char.ofNat 0xED, [Char.ofNat 0xCD]),
   (Char.ofNat 0xEE, [Char.ofNat 0xCE]),
   (Char.ofNat 0xEF, [Char.ofNat 0xCF]),
   (Char.ofNat 0xF0, [Char.ofNat 0xD0]),
   (Char.ofNat 0xF1, [Char.ofNat 0xD1]),
   (Char.ofNat 0xF2, [Char.ofNat 0xD2]),
   (Char.ofNat 0xF3, [Char.ofNat 0xD3]),
   (Char.ofNat 0xF4, [Char.ofNat 0xD4]),
   (Char.ofNat 0xF5, [Char.ofNat 0xD5]),
   (Char.ofNat 0xF6, [Char.ofNat 0xD6]),
   (Char.ofNat 0xF8, [Char.ofNat 0xD8]),
   (Char.ofNat 0xF9, [Char.ofNat 0xD9]),
   (Char.ofNat 0xFA, [Char.ofNat 0xDA]),
   (Char.ofNat 0xFB, [Char.ofNat 0xDB]),
   (Char.ofNat 0xFC, [Char.ofNat 0xDC]),
   (Char.ofNat 0xFD, [Char.ofNat 0xDD]),
   (Char.ofNat 0xFE, [Char.ofNat 0xDE]),
   (Char.ofNat 0xFF, [Char.ofNat 0x178]),
   (Char.ofNat 0x101, [Char.ofNat 0x100]),
   (Char.ofNat 0x103, [Char.ofNat 0x102]),
   (Char.ofNat 0x105, [Char.ofNat 0x104]),
   (Char.ofNat 0x107, [Char.ofNat 0x106]),
   (Char.ofNat 0x109, [Char.ofNat 0x108]),
   (Char.ofNat 0x10B, [Char.ofNat 0x10A]),
   (Char.ofNat 0x10D, [Char.ofNat 0x10C]),
   (Char.ofNat 0x10F, [Char.ofNat 0x10E]),
   (Char.ofNat 0x111, [Char.ofNat 0x110]),
   (Char.ofNat 0x113, [Char.ofNat 0x112]),
   (Char.ofNat 0x115, [Char.ofNat 0x114]),
   (Char.ofNat 0x117, [Char.ofNat 0x116]),
   (Char.ofNat 0x119, [Char.ofNat 0x118]),
   (Char.ofNat 0x11B, [Char.ofNat 0x11A]),
   (Char.ofNat 0x11D, [Char.ofNat 0x11C]),
   (Char.ofNat 0x11F, [Char.ofNat 0x11E]),
   (Char.ofNat 0x121, [Char.ofNat 0x120]),
   (Char.ofNat 0x123, [Char.ofNat 0x122]),
   (Char.ofNat 0x125, [Char.ofNat 0x124]),
   (Char.ofNat 0x127, [Char.ofNat 0x126]),
   (Char.ofNat 0x129, [Char.ofNat 0x128]),
   (Char.ofNat 0x12B, [Char.ofNat 0x12A]),
   (Char.ofNat 0x12D, [Char.ofNat 0x12C]),
   (Char.ofNat 0x12F, [Char.ofNat 0x12E]),
   (Char.ofNat 0x131, [Char.ofNat 0x49]),
   (Char.ofNat 0x133, [Char.ofNat 0x132]),
   (Char.ofNat 0x135, [Char.ofNat 0x134]),
   (Char.ofNat 0x137, [Char.ofNat 0x136]),
   (Char.ofNat 0x13A, [Char.ofNat 0x139]),
   (Char.ofNat 0x13C, [Char.ofNat 0x13B]),
   (Char.ofNat 0x13E, [Char.ofNat 0x13D]),
   (Char.ofNat 0x140, [Char.ofNat 0x13F]),
   (Char.ofNat 0x142, [Char.ofNat 0x141]),
   (Char.ofNat 0x144, [Char.ofNat 0x143]),
   (Char.ofNat 0x146, [Char.ofNat 0x145]),
   (Char.ofNat 0x148, [Char.ofNat 0x147]),
   (Char.ofNat 0x149, [Char.ofNat 0x2BC, Char.ofNat 0x4E]),
   (Char.ofNat 0x14B, [Char.ofNat 0x14A]),
   (Char.ofNat 0x14D, [Char.ofNat 0x14C]),
   (Char.ofNat 0x14F, [Char.ofNat 0x14E]),
   (Char.ofNat 0x151, [Char.ofNat 0x150]),
   (Char.ofNat 0x153, [Char.ofNat 0x152]),
   (Char.ofNat 0x155, [Char.ofNat 0x154]),
   (Char.ofNat 0x157, [Char.ofNat 0x156]),
   (Char.ofNat 0x159, [Char.ofNat 0x158]),
   (Char.ofNat 0x15B, [Char.ofNat 0x15A]),
   (Char.ofNat 0x15D, [Char.ofNat 0x15C]),
   (Char.ofNat 0x15F, [Char.ofNat 0x15E]),
   (Char.ofNat 0x161, [Char.ofNat 0x160]),
   (Char.ofNat 0x163, [Char.ofNat 0x162]),
   (Char.ofNat 0x165, [Char.ofNat 0x164]),
   (Char.ofNat 0x167, [Char.ofNat 0x166]),
   (Char.ofNat 0x169, [Char.ofNat 0x168]),
   (Char.ofNat 0x16B, [Char.ofNat 0x16A]),
   (Char.ofNat 0x16D, [Char.ofNat 0x16C]),
   (Char.ofNat 0x16F, [Char.ofNat 0x16E]),
   (Char.ofNat 0x171, [Char.ofNat 0x170]),
   (Char.ofNat 0x173, [Char.ofNat 0x172]),
   (Char.ofNat 0x175, [Char.ofNat 0x174]),
   (Char.ofNat 0x177, [Char.ofNat 0x176]),
   (Char.ofNat 0x17A, [Char.ofNat 0x179]),
   (Char.ofNat 0x17C, [Char.ofNat 0x17B]),
   (Char.ofNat 0x17E, [Char.ofNat 0x17D]),
   (Char.ofNat 0x17F, [Char.ofNat 0x53]),
   (Char.ofNat 0x180, [Char.ofNat 0x243]),
   (Char.ofNat 0x183, [Char.ofNat 0x182]),
   (Char.ofNat 0x185, [Char.ofNat 0x184]),
   (Char.ofNat 0x188, [Char.ofNat 0x187]),
   (Char.ofNat 0x18C, [Char.ofNat 0x18B]),
   (Char.ofNat 0x192, [Char.ofNat 0x191]),
   (Char.ofNat 0x195, [Char.ofNat 0x1F6]),
   (Char.ofNat 0x199, [Char.ofNat 0x198]),
   (Char.ofNat 0x19A, [Char.ofNat 0x23D]),
   (Char.ofNat 0x19E, [Char.ofNat 0x220]),
   (Char.ofNat 0x1A1, [Char.ofNat 0x1A0]),
   (Char.ofNat 0x1A3, [Char.ofNat 0x1A2]),
   (Char.ofNat 0x1A5, [Char.ofNat 0x1A4]),
   (Char.ofNat 0x1A8, [Char.ofNat 0x1A7]),
   (Char.ofNat 0x1AD, [Char.ofNat 0x1AC]),
   (Char.ofNat 0x1B0, [Char.ofNat 0x1AF]),
   (Char.ofNat 0x1B4, [Char.ofNat 0x1B3]),
   (Char.ofNat 0x1B6, [Char.ofNat 0x1B5]),
   (Char.ofNat 0x1B9, [Char.ofNat 0x1B8]),
   (Char.ofNat 0x1BD, [Char.ofNat 0x1BC]),
   (Char.ofNat 0x1BF, [Char.ofNat 0x1F7]),
   (Char.ofNat 0x1C5, [Char.ofNat 0x1C4]),
   (Char.ofNat 0x1C6, [Char.ofNat 0x1C4]),
   (Char.ofNat 0x1C8, [Char.ofNat 0x1C7]),
   (Char.ofNat 0x1C9, [Char.ofNat 0x1C7]),
   (Char.ofNat 0x1CB, [Char.ofNat 0x1CA]),
   (Char.ofNat 0x1CC, [Char.ofNat 0x1CA]),
   (Char.ofNat 0x1CE, [Char.ofNat 0x1CD]),
   (Char.ofNat 0x1D0, [Char.ofNat 0x1CF]),
   (Char.ofNat 0x1D2, [Char.ofNat 0x1D1]),
   (Char.ofNat 0x1D4, [Char.ofNat 0x1D3]),
   (Char.ofNat 0x1D6, [Char.ofNat 0x1D5]),
   (Char.ofNat 0x1D8, [Char.ofNat 0x1D7]),
   (Char.ofNat 0x1DA, [Char.ofNat 0x1D9]),
   (Char.ofNat 0x1DC, [Char.ofNat 0x1DB]),
   (Char.ofNat 0x1DD, [Char.ofNat 0x18E]),
   (Char.ofNat 0x1DF, [Char.ofNat 0x1DE]),
   (Char.ofNat 0x1E1, [Char.ofNat 0x1E0]),
   (Char.ofNat 0x1E3, [Char.ofNat 0x1E2]),
   (Char.ofNat 0x1E5, [Char.ofNat 0x1E4]),
   (Char.ofNat 0x1E7, [Char.ofNat 0x1E6]),
   (Char.ofNat 0x1E9, [Char.ofNat 0x1E8]),
   (Char.ofNat 0x1EB, [Char.ofNat 0x1EA]),
   (Char.ofNat 0x1ED, [Char.ofNat 0x1EC]),
   (Char.ofNat 0x1EF, [Char.ofNat 0x1EE]),
   (Char.ofNat 0x1F0, [Char.ofNat 0x4A, Char.ofNat 0x30C]),
   (Char.ofNat 0x1F2, [Char.ofNat 0x1F1]),
   (Char.ofNat 0x1F3, [Char.ofNat 0x1F1]),
   (Char.ofNat 0x1F5, [Char.ofNat 0x1F4]),
   (Char.ofNat 0x1F9, [Char.ofNat 0x1F8]),
   (Char.ofNat 0x1FB, [Char.ofNat 0x1FA]),
   (Char.ofNat 0x1FD, [Char.ofNat 0x1FC]),
   (Char.ofNat 0x1FF, [Char.ofNat 0x1FE]),
   (Char.ofNat 0x201, [Char.ofNat 0x200]),
   (Char.ofNat 0x203, [Char.ofNat 0x202]),
   (Char.ofNat 0x205, [Char.ofNat 0x204]),
   (Char.ofNat 0x207, [Char.ofNat 0x206]),
   (Char.ofNat 0x209, [Char.ofNat 0x208]),
   (Char.ofNat 0x20B, [Char.ofNat 0x20A]),
   (Char.ofNat 0x20D, [Char.ofNat 0x20C]),
   (Char.ofNat 0x20F, [Char.ofNat 0x20E]),
   (Char.ofNat 0x211, [Char.ofNat 0x210]),
   (Char.ofNat 0x213, [Char.ofNat 0x212]),
   (Char.ofNat 0x215, [Char.ofNat 0x214]),
   (Char.ofNat 0x217, [Char.ofNat 0x216]),
   (Char.ofNat 0x219, [Char.ofNat 0x218]),
   (Char.ofNat 0x21B, [Char.ofNat 0x21A]),
   (Char.ofNat 0x21D, [Char.ofNat 0x21C]),
   (Char.ofNat 0x21F, [Char.ofNat 0x21E]),
   (Char.ofNat 0x223, [Char.ofNat 0x222]),
   (Char.ofNat 0x225, [Char.ofNat 0x224]),
   (Char.ofNat 0x227, [Char.ofNat 0x226]),
   (Char.ofNat 0x229, [Char.ofNat 0x228]),
   (Char.ofNat 0x22B, [Char.ofNat 0x22A]),
   (Char.ofNat 0x22D, [Char.ofNat 0x22C]),
   (Char.ofNat 0x22F, [Char.ofNat 0x22E]),
   (Char.ofNat 0x231, [Char.ofNat 0x230]),
   (Char.ofNat 0x233, [Char.ofNat 0x232]),
   (Char.ofNat 0x23C, [Char.ofNat 0x23B]),
   (Char.ofNat 0x23F, [Char.ofNat 0x2C7E]),
   (Char.ofNat 0x240, [Char.ofNat 0x2C7F]),
   (Char.ofNat 0x242, [Char.ofNat 0x241]),
   (Char.ofNat 0x247, [Char.ofNat 0x246]),
   (Char.ofNat 0x249, [Char.ofNat 0x248]),
   (Char.ofNat 0x24B, [Char.ofNat 0x24A]),
   (Char.ofNat 0x24D, [Char.ofNat 0x24C]),
   (Char.ofNat 0x24F, [Char.ofNat 0x24E]),
   (Char.ofNat 0x250, [Char.ofNat 0x2C6F]),
   (Char.ofNat 0x251, [Char.ofNat 0x2C6D]),
   (Char.ofNat 0x252, [Char.ofNat 0x2C70]),
   (Char.ofNat 0x253, [Char.ofNat 0x181]),
   (Char.ofNat 0x254, [Char.ofNat 0x186]),
   (Char.ofNat 0x256, [Char.ofNat 0x189]),
   (Char.ofNat 0x257, [Char.ofNat 0x18A]),
   (Char.ofNat 0x259, [Char.ofNat 0x18F]),
   (Char.ofNat 0x25B, [Char.ofNat 0x190]),
   (Char.ofNat 0x25C, [Char.ofNat 0xA7AB]),
   (Char.ofNat 0x260, [Char.ofNat 0x193]),
   (Char.ofNat 0x261, [Char.ofNat 0xA7AC]),
   (Char.ofNat 0x263, [Char.ofNat 0x194]),
   (Char.ofNat 0x265, [Char.ofNat 0xA78D]),
   (Char.ofNat 0x266, [Char.ofNat 0xA7AA]),
   (Char.ofNat 0x268, [Char.ofNat 0x197]),
   (Char.ofNat 0x269, [Char.ofNat 0x196]),
   (Char.ofNat 0x26A, [Char.ofNat 0xA7AE]),
   (Char.ofNat 0x26B, [Char.ofNat 0x2C62]),
   (Char.ofNat 0x26C, [Char.ofNat 0xA7AD]),
   (Char.ofNat 0x26F, [Char.ofNat 0x19C]),
   (Char.ofNat 0x271, [Char.ofNat 0x2C6E]),
   (Char.ofNat 0x272, [Char.ofNat 0x19D]),
   (Char.ofNat 0x275, [Char.ofNat 0x19F]),
   (Char.ofNat 0x27D, [Char.ofNat 0x2C64]),
   (Char.ofNat 0x280, [Char.ofNat 0x1A6]),
   (Char.ofNat 0x282, [Char.ofNat 0xA7C5]),
   (Char.ofNat 0x283, [Char.ofNat 0x1A9]),
   (Char.ofNat 0x287, [Char.ofNat 0xA7B1]),
   (Char.ofNat 0x288, [Char.ofNat 0x1AE]),
   (Char.ofNat 0x289, [Char.ofNat 0x244]),
   (Char.ofNat 0x28A, [Char.ofNat 0x1B1]),
   (Char.ofNat 0x28B, [Char.ofNat 0x1B2]),
   (Char.ofNat 0x28C, [Char.ofNat 0x245]),
   (Char.ofNat 0x292, [Char.ofNat 0x1B7]),
   (Char.ofNat 0x29D, [Char.ofNat 0xA7B2]),
   (Char.ofNat 0x29E, [Char.ofNat 0xA7B0]),
   (Char.ofNat 0x345, [Char.ofNat 0x399]),
   (Char.ofNat 0x371, [Char.ofNat 0x370]),
   (Char.ofNat 0x373, [Char.ofNat 0x372]),
   (Char.ofNat 0x377, [Char.ofNat 0x376]),
   (Char.ofNat 0x37B, [Char.ofNat 0x3FD]),
   (Char.ofNat 0x37C, [Char.ofNat 0x3FE]),
   (Char.ofNat 0x37D, [Char.ofNat 0x3FF]),
   (Char.ofNat 0x390, [Char.ofNat 0x399, Char.ofNat 0x308, Char.ofNat 0x301]),
   (Char.ofNat 0x3AC, [Char.ofNat 0x386]),
   (Char.ofNat 0x3AD, [Char.ofNat 0x388]),
   (Char.ofNat 0x3AE, [Char.ofNat 0x389]),
   (Char.ofNat 0x3AF, [Char.ofNat 0x38A]),
   (Char.ofNat 0x3B0, [Char.ofNat 0x3A5, Char.ofNat 0x308, Char.ofNat 0x301]),
   (Char.ofNat 0x3B1, [Char.ofNat 0x391]),
   (Char.ofNat 0x3B2, [Char.ofNat 0x392]),
   (Char.ofNat 0x3B3, [Char.ofNat 0x393]),
   (Char.ofNat 0x3B4, [Char.ofNat 0x394]),
   (Char.ofNat 0x3B5, [Char.ofNat 0x395]),
   (Char.ofNat 0x3B6, [Char.ofNat 0x396]),
   (Char.ofNat 0x3B7, [Char.ofNat 0x397]),
   (Char.ofNat 0x3B8, [Char.ofNat 0x398]),
   (Char.ofNat 0x3B9, [Char.ofNat 0x399]),
   (Char.ofNat 0x3BA, [Char.ofNat 0x39A]),
   (Char.ofNat 0x3BB, [Char.ofNat 0x39B]),
   (Char.ofNat 0x3BC, [Char.ofNat 0x39C]),
   (Char.ofNat 0x3BD, [Char.ofNat 0x39D]),
   (Char.ofNat 0x3BE, [Char.ofNat 0x39E]),
   (Char.ofNat 0x3BF, [Char.ofNat 0x39F]),
   (Char.ofNat 0x3C0, [Char.ofNat 0x3A0]),
   (Char.ofNat 0x3C1, [Char.ofNat 0x3A1]),
   (Char.ofNat 0x3C2, [Char.ofNat 0x3A3]),
   (Char.ofNat 0x3C3, [Char.ofNat 0x3A3]),
   (Char.ofNat 0x3C4, [Char.ofNat 0x3A4]),
   (Char.ofNat 0x3C5, [Char.ofNat 0x3A5]),
   (Char.ofNat 0x3C6, [Char.ofNat 0x3A6]),
   (Char.ofNat 0x3C7, [Char.ofNat 0x3A7]),
   (Char.ofNat 0x3C8, [Char.ofNat 0x3A8]),
   (Char.ofNat 0x3C9, [Char.ofNat 0x3A9]),
   (Char.ofNat 0x3CA, [Char.ofNat 0x3AA]),
   (Char.ofNat 0x3CB, [Char.ofNat 0x3AB]),
   (Char.ofNat 0x3CC, [Char.ofNat 0x38C]),
   (Char.ofNat 0x3CD, [Char.ofNat 0x38E]),
   (Char.ofNat 0x3CE, [Char.ofNat 0x38F]),
   (Char.ofNat 0x3D0, [Char.ofNat 0x392]),
   (Char.ofNat 0x3D1, [Char.ofNat 0x398]),
   (Char.ofNat 0x3D5, [Char.ofNat 0x3A6]),
   (Char.ofNat 0x3D6, [Char.ofNat 0x3A0]),
   (Char.ofNat 0x3D7, [Char.ofNat 0x3CF]),
   (Char.ofNat 0x3D9, [Char.ofNat 0x3D8]),
   (Char.ofNat 0x3DB, [Char.ofNat 0x3DA]),
   (Char.ofNat 0x3DD, [Char.ofNat 0x3DC]),
   (Char.ofNat 0x3DF, [Char.ofNat 0x3DE]),
   (Char.ofNat 0x3E1, [Char.ofNat 0x3E0]),
   (Char.ofNat 0x3E3, [Char.ofNat 0x3E2]),
   (Char.ofNat 0x3E5, [Char.ofNat 0x3E4]),
   (Char.ofNat 0x3E7, [Char.ofNat 0x3E6]),
   (Char.ofNat 0x3E9, [Char.ofNat 0x3E8]),
   (Char.ofNat 0x3EB, [Char.ofNat 0x3EA]),
   (Char.ofNat 0x3ED, [Char.ofNat 0x3EC]),
   (Char.ofNat 0x3EF, [Char.ofNat 0x3EE]),
   (Char.ofNat 0x3F0, [Char.ofNat 0x39A]),
   (Char.ofNat 0x3F1, [Char.ofNat 0x3A1]),
   (Char.ofNat 0x3F2, [Char.ofNat 0x3F9]),
   (Char.ofNat 0x3F3, [Char.ofNat 0x37F]),
   (Char.ofNat 0x3F5, [Char.ofNat 0x395]),
   (Char.ofNat 0x3F8, [Char.ofNat 0x3F7]),
   (Char.ofNat 0x3FB, [Char.ofNat 0x3FA]),
   (Char.ofNat 0x430, [Char.ofNat 0x410]),
   (Char.ofNat 0x431, [Char.ofNat 0x411]),
   (Char.ofNat 0x432, [Char.ofNat 0x412]),
   (Char.ofNat 0x433, [Char.ofNat 0x413]),
   (Char.ofNat 0x434, [Char.ofNat 0x414]),
   (Char.ofNat 0x435, [Char.ofNat 0x415]),
   (Char.ofNat 0x436, [Char.ofNat 0x416]),
   (Char.ofNat 0x437, [Char.ofNat 0x417]),
   (Char.ofNat 0x438, [Char.ofNat 0x418]),
   (Char.ofNat 0x439, [Char.ofNat 0x419]),
   (Char.ofNat 0x43A, [Char.ofNat 0x41A]),
   (Char.ofNat 0x43B, [Char.ofNat 0x41B]),
   (Char.ofNat 0x43C, [Char.ofNat 0x41C]),
   (Char.ofNat 0x43D, [Char.ofNat 0x41D]),
   (Char.ofNat 0x43E, [Char.ofNat 0x41E]),
   (Char.ofNat 0x43F, [Char.ofNat 0x41F]),
   (Char.ofNat 0x440, [Char.ofNat 0x420]),
   (Char.ofNat 0x441, [Char.ofNat 0x421]),
   (Char.ofNat 0x442, [Char.ofNat 0x422]),
   (Char.ofNat 0x443, [Char.ofNat 0x423]),
   (Char.ofNat 0x444, [Char.ofNat 0x424]),
   (Char.ofNat 0x445, [Char.ofNat 0x425]),
   (Char.ofNat 0x446, [Char.ofNat 0x426]),
   (Char.ofNat 0x447, [Char.ofNat 0x427]),
   (Char.ofNat 0x448, [Char.ofNat 0x428]),
   (Char.ofNat 0x449, [Char.ofNat 0x429]),
   (Char.ofNat 0x44A, [Char.ofNat 0x42A]),
   (Char.ofNat 0x44B, [Char.ofNat 0x42B]),
   (Char.ofNat 0x44C, [Char.ofNat 0x42C]),
   (Char.ofNat 0x44D, [Char.ofNat 0x42D]),
   (Char.ofNat 0x44E, [Char.ofNat 0x42E]),
   (Char.ofNat 0x44F, [Char.ofNat 0x42F]),
   (Char.ofNat 0x450, [Char.ofNat 0x400]),
   (Char.ofNat 0x451, [Char.ofNat 0x401]),
   (Char.ofNat 0x452, [Char.ofNat 0x402]),
   (Char.ofNat 0x453, [Char.ofNat 0x403]),
   (Char.ofNat 0x454, [Char.ofNat 0x404]),
   (Char.ofNat 0x455, [Char.ofNat 0x405]),
   (Char.ofNat 0x456, [Char.ofNat 0x406]),
   (Char.ofNat 0x457, [Char.ofNat 0x407]),
   (Char.ofNat 0x458, [Char.ofNat 0x408]),
   (Char.ofNat 0x459, [Char.ofNat 0x409]),
   (Char.ofNat 0x45A, [Char.ofNat 0x40A]),
   (Char.ofNat 0x45B, [Char.ofNat 0x40B]),
   (Char.ofNat 0x45C, [Char.ofNat 0x40C]),
   (Char.ofNat 0x45D, [Char.ofNat 0x40D]),
   (Char.ofNat 0x45E, [Char.ofNat 0x40E]),
   (Char.ofNat 0x45F, [Char.ofNat 0x40F]),
   (Char.ofNat 0x461, [Char.ofNat 0x460]),
   (Char.ofNat 0x463, [Char.ofNat 0x462]),
   (Char.ofNat 0x465, [Char.ofNat 0x464]),
   (Char.ofNat 0x467, [Char.ofNat 0x466]),
   (Char.ofNat 0x469, [Char.ofNat 0x468]),
   (Char.ofNat 0x46B, [Char.ofNat 0x46A]),
   (Char.ofNat 0x46D, [Char.ofNat 0x46C]),
   (Char.ofNat 0x46F, [Char.ofNat 0x46E]),
   (Char.ofNat 0x471, [Char.ofNat 0x470]),
   (Char.ofNat 0x473, [Char.ofNat 0x472]),
   (Char.ofNat 0x475, [Char.ofNat 0x474]),
   (Char.ofNat 0x477, [Char.ofNat 0x476]),
   (Char.ofNat 0x479, [Char.ofNat 0x478]),
   (Char.ofNat 0x47B, [Char.ofNat 0x47A]),
   (Char.ofNat 0x47D, [Char.ofNat 0x47C]),
   (Char.ofNat 0x47F, [Char.ofNat 0x47E]),
   (Char.ofNat 0x481, [Char.ofNat 0x480]),
   (Char.ofNat 0x48B, [Char.ofNat 0x48A]),
   (Char.ofNat 0x48D, [Char.ofNat 0x48C]),
   (Char.ofNat 0x48F, [Char.ofNat 0x48E]),
   (Char.ofNat 0x491, [Char.ofNat 0x490]),
   (Char.ofNat 0x493, [Char.ofNat 0x492]),
   (Char.ofNat 0x495, [Char.ofNat 0x494]),
   (Char.ofNat 0x497, [Char.ofNat 0x496]),
   (Char.ofNat 0x499, [Char.ofNat 0x498]),
   (Char.ofNat 0x49B, [Char.ofNat 0x49A]),
   (Char.ofNat 0x49D, [Char.ofNat 0x49C]),
   (Char.ofNat 0x49F, [Char.ofNat 0x49E]),
   (Char.ofNat 0x4A1, [Char.ofNat 0x4A0]),
   (Char.ofNat 0x4A3, [Char.ofNat 0x4A2]),
   (Char.ofNat 0x4A5, [Char.ofNat 0x4A4]),
   (Char.ofNat 0x4A7, [Char.ofNat 0x4A6]),
   (Char.ofNat 0x4A9, [Char.ofNat 0x4A8]),
   (Char.ofNat 0x4AB, [Char.ofNat 0x4AA]),
   (Char.ofNat 0x4AD, [Char.ofNat 0x4AC]),
   (Char.ofNat 0x4AF, [Char.ofNat 0x4AE]),
   (Char.ofNat 0x4B1, [Char.ofNat 0x4B0]),
   (Char.ofNat 0x4B3, [Char.ofNat 0x4B2])]

/-- Part 2 of `pyUpperTable`. -/
def pyUpperTable2 : List (Char × List Char) :=
  [(Char.ofNat 0x4B5, [Char.ofNat 0x4B4]),
   (Char.ofNat 0x4B7, [Char.ofNat 0x4B6]),
   (Char.ofNat 0x4B9, [Char.ofNat 0x4B8]),
   (Char.ofNat 0x4BB, [Char.ofNat 0x4BA]),
   (Char.ofNat 0x4BD, [Char.ofNat 0x4BC]),
   (Char.ofNat 0x4BF, [Char.ofNat 0x4BE]),
   (Char.ofNat 0x4C2, [Char.ofNat 0x4C1]),
   (Char.ofNat 0x4C4, [Char.ofNat 0x4C3]),
   (Char.ofNat 0x4C6, [Char.ofNat 0x4C5]),
   (Char.ofNat 0x4C8, [Char.ofNat 0x4C7]),
   (Char.ofNat 0x4CA, [Char.ofNat 0x4C9]),
   (Char.ofNat 0x4CC, [Char.ofNat 0x4CB]),
   (Char.ofNat 0x4CE, [Char.ofNat 0x4CD]),
   (Char.ofNat 0x4CF, [Char.ofNat 0x4C0]),
   (Char.ofNat 0x4D1, [Char.ofNat 0x4D0]),
   (Char.ofNat 0x4D3, [Char.ofNat 0x4D2]),
   (Char.ofNat 0x4D5, [Char.ofNat 0x4D4]),
   (Char.ofNat 0x4D7, [Char.ofNat 0x4D6]),
   (Char.ofNat 0x4D9, [Char.ofNat 0x4D8]),
   (Char.ofNat 0x4DB, [Char.ofNat 0x4DA]),
   (Char.ofNat 0x4DD, [Char.ofNat 0x4DC]),
   (Char.ofNat 0x4DF, [Char.ofNat 0x4DE]),
   (Char.ofNat 0x4E1, [Char.ofNat 0x4E0]),
   (Char.ofNat 0x4E3, [Char.ofNat 0x4E2]),
   (Char.ofNat 0x4E5, [Char.ofNat 0x4E4]),
   (Char.ofNat 0x4E7, [Char.ofNat 0x4E6]),
   (Char.ofNat 0x4E9, [Char.ofNat 0x4E8]),
   (Char.ofNat 0x4EB, [Char.ofNat 0x4EA]),
   (Char.ofNat 0x4ED, [Char.ofNat 0x4EC]),
   (Char.ofNat 0x4EF, [Char.ofNat 0x4EE]),
   (Char.ofNat 0x4F1, [Char.ofNat 0x4F0]),
   (Char.ofNat 0x4F3, [Char.ofNat 0x4F2]),
   (Char.ofNat 0x4F5, [Char.ofNat 0x4F4]),
   (Char.ofNat 0x4F7, [Char.ofNat 0x4F6]),
   (Char.ofNat 0x4F9, [Char.ofNat 0x4F8]),
   (Char.ofNat 0x4FB, [Char.ofNat 0x4FA]),
   (Char.ofNat 0x4FD, [Char.ofNat 0x4FC]),
   (Char.ofNat 0x4FF, [Char.ofNat 0x4FE]),
   (Char.ofNat 0x501, [Char.ofNat 0x500]),
   (Char.ofNat 0x503, [Char.ofNat 0x502]),
   (Char.ofNat 0x505, [Char.ofNat 0x504]),
   (Char.ofNat 0x507, [Char.ofNat 0x506]),
   (Char.ofNat 0x509, [Char.ofNat 0x508]),
   (Char.ofNat 0x50B, [Char.ofNat 0x50A]),
   (Char.ofNat 0x50D, [Char.ofNat 0x50C]),
   (Char.ofNat 0x50F, [Char.ofNat 0x50E]),
   (Char.ofNat 0x511, [Char.ofNat 0x510]),
   (Char.ofNat 0x513, [Char.ofNat 0x512]),
   (Char.ofNat 0x515, [Char.ofNat 0x514]),
   (Char.ofNat 0x517, [Char.ofNat 0x516]),
   (Char.ofNat 0x519, [Char.ofNat 0x518]),
   (Char.ofNat 0x51B, [Char.ofNat 0x51A]),
   (Char.ofNat 0x51D, [Char.ofNat 0x51C]),
   (Char.ofNat 0x51F, [Char.ofNat 0x51E]),
   (Char.ofNat 0x521, [Char.ofNat 0x520]),
   (Char.ofNat 0x523, [Char.ofNat 0x522]),
   (Char.ofNat 0x525, [Char.ofNat 0x524]),
   (Char.ofNat 0x527, [Char.ofNat 0x526]),
   (Char.ofNat 0x529, [Char.ofNat 0x528]),
   (Char.ofNat 0x52B, [Char.ofNat 0x52A]),
   (Char.ofNat 0x52D, [Char.ofNat 0x52C]),
   (Char.ofNat 0x52F, [Char.ofNat 0x52E]),
   (Char.ofNat 0x561, [Char.ofNat 0x531]),
   (Char.ofNat 0x562, [Char.ofNat 0x532]),
   (Char.ofNat 0x563, [Char.ofNat 0x533]),
   (Char.ofNat 0x564, [Char.ofNat 0x534]),
   (Char.ofNat 0x565, [Char.ofNat 0x535]),
   (Char.ofNat 0x566, [Char.ofNat 0x536]),
   (Char.ofNat 0x567, [Char.ofNat 0x537]),
   (Char.ofNat 0x568, [Char.ofNat 0x538]),
   (Char.ofNat 0x569, [Char.ofNat 0x539]),
   (Char.ofNat 0x56A, [Char.ofNat 0x53A]),
   (Char.ofNat 0x56B, [Char.ofNat 0x53B]),
   (Char.ofNat 0x56C, [Char.ofNat 0x53C]),
   (Char.ofNat 0x56D, [Char.ofNat 0x53D]),
   (Char.ofNat 0x56E, [Char.ofNat 0x53E]),
   (Char.ofNat 0x56F, [Char.ofNat 0x53F]),
   (Char.ofNat 0x570, [Char.ofNat 0x540]),
   (Char.ofNat 0x571, [Char.ofNat 0x541]),
   (Char.ofNat 0x572, [Char.ofNat 0x542]),
   (Char.ofNat 0x573, [Char.ofNat 0x543]),
   (Char.ofNat 0x574, [Char.ofNat 0x544]),
   (Char.ofNat 0x575, [Char.ofNat 0x545]),
   (Char.ofNat 0x576, [Char.ofNat 0x546]),
   (Char.ofNat 0x577, [Char.ofNat 0x547]),
   (Char.ofNat 0x578, [Char.ofNat 0x548]),
   (Char.ofNat 0x579, [Char.ofNat 0x549]),
   (Char.ofNat 0x57A, [Char.ofNat 0x54A]),
   (Char.ofNat 0x57B, [Char.ofNat 0x54B]),
   (Char.ofNat 0x57C, [Char.ofNat 0x54C]),
   (Char.ofNat 0x57D, [Char.ofNat 0x54D]),
   (Char.ofNat 0x57E, [Char.ofNat 0x54E]),
   (Char.ofNat 0x57F, [Char.ofNat 0x54F]),
   (Char.ofNat 0x580, [Char.ofNat 0x550]),
   (Char.ofNat 0x581, [Char.ofNat 0x551]),
   (Char.ofNat 0x582, [Char.ofNat 0x552]),
   (Char.ofNat 0x583, [Char.ofNat 0x553]),
   (Char.ofNat 0x584, [Char.ofNat 0x554]),
   (Char.ofNat 0x585, [Char.ofNat 0x555]),
   (Char.ofNat 0x586, [Char.ofNat 0x556]),
   (Char.ofNat 0x587, [Char.ofNat 0x535, Char.ofNat 0x552]),
   (Char.ofNat 0x10D0, [Char.ofNat 0x1C90]),
   (Char.ofNat 0x10D1, [Char.ofNat 0x1C91]),
   (Char.ofNat 0x10D2, [Char.ofNat 0x1C92]),
   (Char.ofNat 0x10D3, [Char.ofNat 0x1C93]),
   (Char.ofNat 0x10D4, [Char.ofNat 0x1C94]),
   (Char.ofNat 0x10D5, [Char.ofNat 0x1C95]),
   (Char.ofNat 0x10D6, [Char.ofNat 0x1C96]),
   (Char.ofNat 0x10D7, [Char.ofNat 0x1C97]),
   (Char.ofNat 0x10D8, [Char.ofNat 0x1C98]),
   (Char.ofNat 0x10D9, [Char.ofNat 0x1C99]),
   (Char.ofNat 0x10DA, [Char.ofNat 0x1C9A]),
   (Char.ofNat 0x10DB, [Char.ofNat 0x1C9B]),
   (Char.ofNat 0x10DC, [Char.ofNat 0x1C9C]),
   (Char.ofNat 0x10DD, [Char.ofNat 0x1C9D]),
   (Char.ofNat 0x10DE, [Char.ofNat 0x1C9E]),
   (Char.ofNat 0x10DF, [Char.ofNat 0x1C9F]),
   (Char.ofNat 0x10E0, [Char.ofNat 0x1CA0]),
   (Char.ofNat 0x10E1, [Char.ofNat 0x1CA1]),
   (Char.ofNat 0x10E2, [Char.ofNat 0x1CA2]),
   (Char.ofNat 0x10E3, [Char.ofNat 0x1CA3]),
   (Char.ofNat 0x10E4, [Char.ofNat 0x1CA4]),
   (Char.ofNat 0x10E5, [Char.ofNat 0x1CA5]),
   (Char.ofNat 0x10E6, [Char.ofNat 0x1CA6]),
   (Char.ofNat 0x10E7, [Char.ofNat 0x1CA7]),
   (Char.ofNat 0x10E8, [Char.ofNat 0x1CA8]),
   (Char.ofNat 0x10E9, [Char.ofNat 0x1CA9]),
   (Char.ofNat 0x10EA, [Char.ofNat 0x1CAA]),
   (Char.ofNat 0x10EB, [Char.ofNat 0x1CAB]),
   (Char.ofNat 0x10EC, [Char.ofNat 0x1CAC]),
   (Char.ofNat 0x10ED, [Char.ofNat 0x1CAD]),
   (Char.ofNat 0x10EE, [Char.ofNat 0x1CAE]),
   (Char.ofNat 0x10EF, [Char.ofNat 0x1CAF]),
   (Char.ofNat 0x10F0, [Char.ofNat 0x1CB0]),
   (Char.ofNat 0x10F1, [Char.ofNat 0x1CB1]),
   (Char.ofNat 0x10F2, [Char.ofNat 0x1CB2]),
   (Char.ofNat 0x10F3, [Char.ofNat 0x1CB3]),
   (Char.ofNat 0x10F4, [Char.ofNat 0x1CB4]),
   (Char.ofNat 0x10F5, [Char.ofNat 0x1CB5]),
   (Char.ofNat 0x10F6, [Char.ofNat 0x1CB6]),
   (Char.ofNat 0x10F7, [Char.ofNat 0x1CB7]),
   (Char.ofNat 0x10F8, [Char.ofNat 0x1CB8]),
   (Char.ofNat 0x10F9, [Char.ofNat 0x1CB9]),
   (Char.ofNat 0x10FA, [Char.ofNat 0x1CBA]),
   (Char.ofNat 0x10FD, [Char.ofNat 0x1CBD]),
   (Char.ofNat 0x10FE, [Char.ofNat 0x1CBE]),
   (Char.ofNat 0x10FF, [Char.ofNat 0x1CBF]),
   (Char.ofNat 0x13F8, [Char.ofNat 0x13F0]),
   (Char.ofNat 0x13F9, [Char.ofNat 0x13F1]),
   (Char.ofNat 0x13FA, [Char.ofNat 0x13F2]),
   (Char.ofNat 0x13FB, [Char.ofNat 0x13F3]),
   (Char.ofNat 0x13FC, [Char.ofNat 0x13F4]),
   (Char.ofNat 0x13FD, [Char.ofNat 0x13F5]),
   (Char.ofNat 0x1C80, [Char.ofNat 0x412]),
   (Char.ofNat 0x1C81, [Char.ofNat 0x414]),
   (Char.ofNat 0x1C82, [Char.ofNat 0x41E]),
   (Char.ofNat 0x1C83, [Char.ofNat 0x421]),
   (Char.ofNat 0x1C84, [Char.ofNat 0x422]),
   (Char.ofNat 0x1C85, [Char.ofNat 0x422]),
   (Char.ofNat 0x1C86, [Char.ofNat 0x42A]),
   (Char.ofNat 0x1C87, [Char.ofNat 0x462]),
   (Char.ofNat 0x1C88, [Char.ofNat 0xA64A]),
   (Char.ofNat 0x1D79, [Char.ofNat 0xA77D]),
   (Char.ofNat 0x1D7D, [Char.ofNat 0x2C63]),
   (Char.ofNat 0x1D8E, [Char.ofNat 0xA7C6]),
   (Char.ofNat 0x1E01, [Char.ofNat 0x1E00]),
   (Char.ofNat 0x1E03, [Char.ofNat 0x1E02]),
   (Char.ofNat 0x1E05, [Char.ofNat 0x1E04]),
   (Char.ofNat 0x1E07, [Char.ofNat 0x1E06]),
   (Char.ofNat 0x1E09, [Char.ofNat 0x1E08]),
   (Char.ofNat 0x1E0B, [Char.ofNat 0x1E0A]),
   (Char.ofNat 0x1E0D, [Char.ofNat 0x1E0C]),
   (Char.ofNat 0x1E0F, [Char.ofNat 0x1E0E]),
   (Char.ofNat 0x1E11, [Char.ofNat 0x1E10]),
   (Char.ofNat 0x1E13, [Char.ofNat 0x1E12]),
   (Char.ofNat 0x1E15, [Char.ofNat 0x1E14]),
   (Char.ofNat 0x1E17, [Char.ofNat 0x1E16]),
   (Char.ofNat 0x1E19, [Char.ofNat 0x1E18]),
   (Char.ofNat 0x1E1B, [Char.ofNat 0x1E1A]),
   (Char.ofNat 0x1E1D, [Char.ofNat 0x1E1C]),
   (Char.ofNat 0x1E1F, [Char.ofNat 0x1E1E]),
   (Char.ofNat 0x1E21, [Char.ofNat 0x1E20]),
   (Char.ofNat 0x1E23, [Char.ofNat 0x1E22]),
   (Char.ofNat 0x1E25, [Char.ofNat 0x1E24]),
   (Char.ofNat 0x1E27, [Char.ofNat 0x1E26]),
   (Char.ofNat 0x1E29, [Char.ofNat 0x1E28]),
   (Char.ofNat 0x1E2B, [Char.ofNat 0x1E2A]),
   (Char.ofNat 0x1E2D, [Char.ofNat 0x1E2C]),
   (Char.ofNat 0x1E2F, [Char.ofNat 0x1E2E]),
   (Char.ofNat 0x1E31, [Char.ofNat 0x1E30]),
   (Char.ofNat 0x1E33, [Char.ofNat 0x1E32]),
   (Char.ofNat 0x1E35, [Char.ofNat 0x1E34]),
   (Char.ofNat 0x1E37, [Char.ofNat 0x1E36]),
   (Char.ofNat 0x1E39, [Char.ofNat 0x1E38]),
   (Char.ofNat 0x1E3B, [Char.ofNat 0x1E3A]),
   (Char.ofNat 0x1E3D, [Char.ofNat 0x1E3C]),
   (Char.ofNat 0x1E3F, [Char.ofNat 0x1E3E]),
   (Char.ofNat 0x1E41, [Char.ofNat 0x1E40]),
   (Char.ofNat 0x1E43, [Char.ofNat 0x1E42]),
   (Char.ofNat 0x1E45, [Char.ofNat 0x1E44]),
   (Char.ofNat 0x1E47, [Char.ofNat 0x1E46]),
   (Char.ofNat 0x1E49, [Char.ofNat 0x1E48]),
   (Char.ofNat 0x1E4B, [Char.ofNat 0x1E4A]),
   (Char.ofNat 0x1E4D, [Char.ofNat 0x1E4C]),
   (Char.ofNat 0x1E4F, [Char.ofNat 0x1E4E]),
   (Char.ofNat 0x1E51, [Char.ofNat 0x1E50]),
   (Char.ofNat 0x1E53, [Char.ofNat 0x1E52]),
   (Char.ofNat 0x1E55, [Char.ofNat 0x1E54]),
   (Char.ofNat 0x1E57, [Char.ofNat 0x1E56]),
   (Char.ofNat 0x1E59, [Char.ofNat 0x1E58]),
   (Char.ofNat 0x1E5B, [Char.ofNat 0x1E5A]),
   (Char.ofNat 0x1E5D, [Char.ofNat 0x1E5C]),
   (Char.ofNat 0x1E5F, [Char.ofNat 0x1E5E]),
   (Char.ofNat 0x1E61, [Char.ofNat 0x1E60]),
   (Char.ofNat 0x1E63, [Char.ofNat 0x1E62]),
   (Char.ofNat 0x1E65, [Char.ofNat 0x1E64]),
   (Char.ofNat 0x1E67, [Char.ofNat 0x1E66]),
   (Char.ofNat 0x1E69, [Char.ofNat 0x1E68]),
   (Char.ofNat 0x1E6B, [Char.ofNat 0x1E6A]),
   (Char.ofNat 0x1E6D, [Char.ofNat 0x1E6C]),
   (Char.ofNat 0x1E6F, [Char.ofNat 0x1E6E]),
   (Char.ofNat 0x1E71, [Char.ofNat 0x1E70]),
   (Char.ofNat 0x1E73, [Char.ofNat 0x1E72]),
   (Char.ofNat 0x1E75, [Char.ofNat 0x1E74]),
   (Char.ofNat 0x1E77, [Char.ofNat 0x1E76]),
   (Char.ofNat 0x1E79, [Char.ofNat 0x1E78]),
   (Char.ofNat 0x1E7B, [Char.ofNat 0x1E7A]),
   (Char.ofNat 0x1E7D, [Char.ofNat 0x1E7C]),
   (Char.ofNat 0x1E7F, [Char.ofNat 0x1E7E]),
   (Char.ofNat 0x1E81, [Char.ofNat 0x1E80]),
   (Char.ofNat 0x1E83, [Char.ofNat 0x1E82]),
   (Char.ofNat 0x1E85, [Char.ofNat 0x1E84]),
   (Char.ofNat 0x1E87, [Char.ofNat 0x1E86]),
   (Char.ofNat 0x1E89, [Char.ofNat 0x1E88]),
   (Char.ofNat 0x1E8B, [Char.ofNat 0x1E8A]),
   (Char.ofNat 0x1E8D, [Char.ofNat 0x1E8C]),
   (Char.ofNat 0x1E8F, [Char.ofNat 0x1E8E]),
   (Char.ofNat 0x1E91, [Char.ofNat 0x1E90]),
   (Char.ofNat 0x1E93, [Char.ofNat 0x1E92]),
   (Char.ofNat 0x1E95, [Char.ofNat 0x1E94]),
   (Char.ofNat 0x1E96, [Char.ofNat 0x48, Char.ofNat 0x331]),
   (Char.ofNat 0x1E97, [Char.ofNat 0x54, Char.ofNat 0x308]),
   (Char.ofNat 0x1E98, [Char.ofNat 0x57, Char.ofNat 0x30A]),
   (Char.ofNat 0x1E99, [Char.ofNat 0x59, Char.ofNat 0x30A]),
   (Char.ofNat 0x1E9A, [Char.ofNat 0x41, Char.ofNat 0x2BE]),
   (Char.ofNat 0x1E9B, [Char.ofNat 0x1E60]),
   (Char.ofNat 0x1EA1, [Char.ofNat 0x1EA0]),
   (Char.ofNat 0x1EA3, [Char.ofNat 0x1EA2]),
   (Char.ofNat 0x1EA5, [Char.ofNat 0x1EA4]),
   (Char.ofNat 0x1EA7, [Char.ofNat 0x1EA6]),
   (Char.ofNat 0x1EA9, [Char.ofNat 0x1EA8]),
   (Char.ofNat 0x1EAB, [Char.ofNat 0x1EAA]),
   (Char.ofNat 0x1EAD, [Char.ofNat 0x1EAC]),
   (Char.ofNat 0x1EAF, [Char.ofNat 0x1EAE]),
   (Char.ofNat 0x1EB1, [Char.ofNat 0x1EB0]),
   (Char.ofNat 0x1EB3, [Char.ofNat 0x1EB2]),
   (Char.ofNat 0x1EB5, [Char.ofNat 0x1EB4]),
   (Char.ofNat 0x1EB7, [Char.ofNat 0x1EB6]),
   (Char.ofNat 0x1EB9, [Char.ofNat 0x1EB8]),
   (Char.ofNat 0x1EBB, [Char.ofNat 0x1EBA]),
   (Char.ofNat 0x1EBD, [Char.ofNat 0x1EBC]),
   (Char.ofNat 0x1EBF, [Char.ofNat 0x1EBE]),
   (Char.ofNat 0x1EC1, [Char.ofNat 0x1EC0]),
   (Char.ofNat 0x1EC3, [Char.ofNat 0x1EC2]),
   (Char.ofNat 0x1EC5, [Char.ofNat 0x1EC4]),
   (Char.ofNat 0x1EC7, [Char.ofNat 0x1EC6]),
   (Char.ofNat 0x1EC9, [Char.ofNat 0x1EC8]),
   (Char.ofNat 0x1ECB, [Char.ofNat 0x1ECA]),
   (Char.ofNat 0x1ECD, [Char.ofNat 0x1ECC]),
   (Char.ofNat 0x1ECF, [Char.ofNat 0x1ECE]),
   (Char.ofNat 0x1ED1, [Char.ofNat 0x1ED0]),
   (Char.ofNat 0x1ED3, [Char.ofNat 0x1ED2]),
   (Char.ofNat 0x1ED5, [Char.ofNat 0x1ED4]),
   (Char.ofNat 0x1ED7, [Char.ofNat 0x1ED6]),
   (Char.ofNat 0x1ED9, [Char.ofNat 0x1ED8]),
   (Char.ofNat 0x1EDB, [Char.ofNat 0x1EDA]),
   (Char.ofNat 0x1EDD, [Char.ofNat 0x1EDC]),
   (Char.ofNat 0x1EDF, [Char.ofNat 0x1EDE]),
   (Char.ofNat 0x1EE1, [Char.ofNat 0x1EE0]),
   (Char.ofNat 0x1EE3, [Char.ofNat 0x1EE2]),
   (Char.ofNat 0x1EE5, [Char.ofNat 0x1EE4]),
   (Char.ofNat 0x1EE7, [Char.ofNat 0x1EE6]),
   (Char.ofNat 0x1EE9, [Char.ofNat 0x1EE8]),
   (Char.ofNat 0x1EEB, [Char.ofNat 0x1EEA]),
   (Char.ofNat 0x1EED, [Char.ofNat 0x1EEC]),
   (Char.ofNat 0x1EEF, [Char.ofNat 0x1EEE]),
   (Char.ofNat 0x1EF1, [Char.ofNat 0x1EF0]),
   (Char.ofNat 0x1EF3, [Char.ofNat 0x1EF2]),
   (Char.ofNat 0x1EF5, [Char.ofNat 0x1EF4]),
   (Char.ofNat 0x1EF7, [Char.ofNat 0x1EF6]),
   (Char.ofNat 0x1EF9, [Char.ofNat 0x1EF8]),
   (Char.ofNat 0x1EFB, [Char.ofNat 0x1EFA]),
   (Char.ofNat 0x1EFD, [Char.ofNat 0x1EFC]),
   (Char.ofNat 0x1EFF, [Char.ofNat 0x1EFE]),
   (Char.ofNat 0x1F00, [Char.ofNat 0x1F08]),
   (Char.ofNat 0x1F01, [Char.ofNat 0x1F09]),
   (Char.ofNat 0x1F02, [Char.ofNat 0x1F0A]),
   (Char.ofNat 0x1F03, [Char.ofNat 0x1F0B]),
   (Char.ofNat 0x1F04, [Char.ofNat 0x1F0C]),
   (Char.ofNat 0x1F05, [Char.ofNat 0x1F0D]),
   (Char.ofNat 0x1F06, [Char.ofNat 0x1F0E]),
   (Char.ofNat 0x1F07, [Char.ofNat 0x1F0F]),
   (Char.ofNat 0x1F10, [Char.ofNat 0x1F18]),
   (Char.ofNat 0x1F11, [Char.ofNat 0x1F19]),
   (Char.ofNat 0x1F12, [Char.ofNat 0x1F1A]),
   (Char.ofNat 0x1F13, [Char.ofNat 0x1F1B]),
   (Char.ofNat 0x1F14, [Char.ofNat 0x1F1C]),
   (Char.ofNat 0x1F15, [Char.ofNat 0x1F1D]),
   (Char.ofNat 0x1F20, [Char.ofNat 0x1F28]),
   (Char.ofNat 0x1F21, [Char.ofNat 0x1F29]),
   (Char.ofNat 0x1F22, [Char.ofNat 0x1F2A]),
   (Char.ofNat 0x1F23, [Char.ofNat 0x1F2B]),
   (Char.ofNat 0x1F24, [Char.ofNat 0x1F2C]),
   (Char.ofNat 0x1F25, [Char.ofNat 0x1F2D]),
   (Char.ofNat 0x1F26, [Char.ofNat 0x1F2E]),
   (Char.ofNat 0x1F27, [Char.ofNat 0x1F2F]),
   (Char.ofNat 0x1F30, [Char.ofNat 0x1F38]),
   (Char.ofNat 0x1F31, [Char.ofNat 0x1F39]),
   (Char.ofNat 0x1F32, [Char.ofNat 0x1F3A]),
   (Char.ofNat 0x1F33, [Char.ofNat 0x1F3B]),
   (Char.ofNat 0x1F34, [Char.ofNat 0x1F3C]),
   (Char.ofNat 0x1F35, [Char.ofNat 0x1F3D]),
   (Char.ofNat 0x1F36, [Char.ofNat 0x1F3E]),
   (Char.ofNat 0x1F37, [Char.ofNat 0x1F3F]),
   (Char.ofNat 0x1F40, [Char.ofNat 0x1F48]),
   (Char.ofNat 0x1F41, [Char.ofNat 0x1F49]),
   (Char.ofNat 0x1F42, [Char.ofNat 0x1F4A]),
   (Char.ofNat 0x1F43, [Char.ofNat 0x1F4B]),
   (Char.ofNat 0x1F44, [Char.ofNat 0x1F4C]),
   (Char.ofNat 0x1F45, [Char.ofNat 0x1F4D]),
   (Char.ofNat 0x1F50, [Char.ofNat 0x3A5, Char.ofNat 0x313]),
   (Char.ofNat 0x1F51, [Char.ofNat 0x1F59]),
   (Char.ofNat 0x1F52, [Char.ofNat 0x3A5, Char.ofNat 0x313, Char.ofNat 0x300]),
   (Char.ofNat 0x1F53, [Char.ofNat 0x1F5B]),
   (Char.ofNat 0x1F54, [Char.ofNat 0x3A5, Char.ofNat 0x313, Char.ofNat 0x301]),
   (Char.ofNat 0x1F55, [Char.ofNat 0x1F5D]),
   (Char.ofNat 0x1F56, [Char.ofNat 0x3A5, Char.ofNat 0x313, Char.ofNat 0x342]),
   (Char.ofNat 0x1F57, [Char.ofNat 0x1F5F]),
   (Char.ofNat 0x1F60, [Char.ofNat 0x1F68]),
   (Char.ofNat 0x1F61, [Char.ofNat 0x1F69]),
   (Char.ofNat 0x1F62, [Char.ofNat 0x1F6A]),
   (Char.ofNat 0x1F63, [Char.ofNat 0x1F6B]),
   (Char.ofNat 0x1F64, [Char.ofNat 0x1F6C]),
   (Char.ofNat 0x1F65, [Char.ofNat 0x1F6D]),
   (Char.ofNat 0x1F66, [Char.ofNat 0x1F6E]),
   (Char.ofNat 0x1F67, [Char.ofNat 0x1F6F]),
   (Char.ofNat 0x1F70, [Char.ofNat 0x1FBA]),
   (Char.ofNat 0x1F71, [Char.ofNat 0x1FBB]),
   (Char.ofNat 0x1F72, [Char.ofNat 0x1FC8]),
   (Char.ofNat 0x1F73, [Char.ofNat 0x1FC9]),
   (Char.ofNat 0x1F74, [Char.ofNat 0x1FCA]),
   (Char.ofNat 0x1F75, [Char.ofNat 0x1FCB]),
   (Char.ofNat 0x1F76, [Char.ofNat 0x1FDA]),
   (Char.ofNat 0x1F77, [Char.ofNat 0x1FDB]),
   (Char.ofNat 0x1F78, [Char.ofNat 0x1FF8]),
   (Char.ofNat 0x1F79, [Char.ofNat 0x1FF9]),
   (Char.ofNat 0x1F7A, [Char.ofNat 0x1FEA]),
   (Char.ofNat 0x1F7B, [Char.ofNat 0x1FEB]),
   (Char.ofNat 0x1F7C, [Char.ofNat 0x1FFA]),
   (Char.ofNat 0x1F7D, [Char.ofNat 0x1FFB]),
   (Char.ofNat 0x1F80, [Char.ofNat 0x1F08, Char.ofNat 0x399]),
   (Char.ofNat 0x1F81, [Char.ofNat 0x1F09, Char.ofNat 0x399]),
   (Char.ofNat 0x1F82, [Char.ofNat 0x1F0A, Char.ofNat 0x399]),
   (Char.ofNat 0x1F83, [Char.ofNat 0x1F0B, Char.ofNat 0x399]),
   (Char.ofNat 0x1F84, [Char.ofNat 0x1F0C, Char.ofNat 0x399]),
   (Char.ofNat 0x1F85, [Char.ofNat 0x1F0D, Char.ofNat 0x399]),
   (Char.ofNat 0x1F86, [Char.ofNat 0x1F0E, Char.ofNat 0x399]),
   (Char.ofNat 0x1F87, [Char.ofNat 0x1F0F, Char.ofNat 0x399]),
   (Char.ofNat 0x1F88, [Char.ofNat 0x1F08, Char.ofNat 0x399]),
   (Char.ofNat 0x1F89, [Char.ofNat 0x1F09, Char.ofNat 0x399]),
   (Char.ofNat 0x1F8A, [Char.ofNat 0x1F0A, Char.ofNat 0x399]),
   (Char.ofNat 0x1F8B, [Char.ofNat 0x1F0B, Char.ofNat 0x399]),
   (Char.ofNat 0x1F8C, [Char.ofNat 0x1F0C, Char.ofNat 0x399]),
   (Char.ofNat 0x1F8D, [Char.ofNat 0x1F0D, Char.ofNat 0x399]),
   (Char.ofNat 0x1F8E, [Char.ofNat 0x1F0E, Char.ofNat 0x399]),
   (Char.ofNat 0x1F8F, [Char.ofNat 0x1F0F, Char.ofNat 0x399]),
   (Char.ofNat 0x1F90, [Char.ofNat 0x1F28, Char.ofNat 0x399]),
   (Char.ofNat 0x1F91, [Char.ofNat 0x1F29, Char.ofNat 0x399]),
   (Char.ofNat 0x1F92, [Char.ofNat 0x1F2A, Char.ofNat 0x399]),
   (Char.ofNat 0x1F93, [Char.ofNat 0x1F2B, Char.ofNat 0x399]),
   (Char.ofNat 0x1F94, [Char.ofNat 0x1F2C, Char.ofNat 0x399]),
   (Char.ofNat 0x1F95, [Char.ofNat 0x1F2D, Char.ofNat 0x399]),
   (Char.ofNat 0x1F96, [Char.ofNat 0x1F2E, Char.ofNat 0x399]),
   (Char.ofNat 0x1F97, [Char.ofNat 0x1F2F, Char.ofNat 0x399]),
   (Char.ofNat 0x1F98, [Char.ofNat 0x1F28, Char.ofNat 0x399]),
   (Char.ofNat 0x1F99, [Char.ofNat 0x1F29, Char.ofNat 0x399]),
   (Char.ofNat 0x1F9A, [Char.ofNat 0x1F2A, Char.ofNat 0x399]),
   (Char.ofNat 0x1F9B, [Char.ofNat 0x1F2B, Char.ofNat 0x399]),
   (Char.ofNat 0x1F9C, [Char.ofNat 0x1F2C, Char.ofNat 0x399]),
   (Char.ofNat 0x1F9D, [Char.ofNat 0x1F2D, Char.ofNat 0x399]),
   (Char.ofNat 0x1F9E, [Char.ofNat 0x1F2E, Char.ofNat 0x399]),
   (Char.ofNat 0x1F9F, [Char.ofNat 0x1F2F, Char.ofNat 0x399]),
   (Char.ofNat 0x1FA0, [Char.ofNat 0x1F68, Char.ofNat 0x399]),
   (Char.ofNat 0x1FA1, [Char.ofNat 0x1F69, Char.ofNat 0x399]),
   (Char.ofNat 0x1FA2, [Char.ofNat 0x1F6A, Char.ofNat 0x399]),
   (Char.ofNat 0x1FA3, [Char.ofNat 0x1F6B, Char.ofNat 0x399]),
   (Char.ofNat 0x1FA4, [Char.ofNat 0x1F6C, Char.ofNat 0x399]),
   (Char.ofNat 0x1FA5, [Char.ofNat 0x1F6D, Char.ofNat 0x399]),
   (Char.ofNat 0x1FA6, [Char.ofNat 0x1F6E, Char.ofNat 0x399]),
   (Char.ofNat 0x1FA7, [Char.ofNat 0x1F6F, Char.ofNat 0x399])]

/-- Part 3 of `pyUpperTable`. -/
def pyUpperTable3 : List (Char × List Char) :=
  [(Char.ofNat 0x1FA8, [Char.ofNat 0x1F68, Char.ofNat 0x399]),
   (Char.ofNat 0x1FA9, [Char.ofNat 0x1F69, Char.ofNat 0x399]),
   (Char.ofNat 0x1FAA, [Char.ofNat 0x1F6A, Char.ofNat 0x399]),
   (Char.ofNat 0x1FAB, [Char.ofNat 0x1F6B, Char.ofNat 0x399]),
   (Char.ofNat 0x1FAC, [Char.ofNat 0x1F6C, Char.ofNat 0x399]),
   (Char.ofNat 0x1FAD, [Char.ofNat 0x1F6D, Char.ofNat 0x399]),
   (Char.ofNat 0x1FAE, [Char.ofNat 0x1F6E, Char.ofNat 0x399]),
   (Char.ofNat 0x1FAF, [Char.ofNat 0x1F6F, Char.ofNat 0x399]),
   (Char.ofNat 0x1FB0, [Char.ofNat 0x1FB8]),
   (Char.ofNat 0x1FB1, [Char.ofNat 0x1FB9]),
   (Char.ofNat 0x1FB2, [Char.ofNat 0x1FBA, Char.ofNat 0x399]),
   (Char.ofNat 0x1FB3, [Char.ofNat 0x391, Char.ofNat 0x399]),
   (Char.ofNat 0x1FB4, [Char.ofNat 0x386, Char.ofNat 0x399]),
   (Char.ofNat 0x1FB6, [Char.ofNat 0x391, Char.ofNat 0x342]),
   (Char.ofNat 0x1FB7, [Char.ofNat 0x391, Char.ofNat 0x342, Char.ofNat 0x399]),
   (Char.ofNat 0x1FBC, [Char.ofNat 0x391, Char.ofNat 0x399]),
   (Char.ofNat 0x1FBE, [Char.ofNat 0x399]),
   (Char.ofNat 0x1FC2, [Char.ofNat 0x1FCA, Char.ofNat 0x399]),
   (Char.ofNat 0x1FC3, [Char.ofNat 0x397, Char.ofNat 0x399]),
   (Char.ofNat 0x1FC4, [Char.ofNat 0x389, Char.ofNat 0x399]),
   (Char.ofNat 0x1FC6, [Char.ofNat 0x397, Char.ofNat 0x342]),
   (Char.ofNat 0x1FC7, [Char.ofNat 0x397, Char.ofNat 0x342, Char.ofNat 0x399]),
   (Char.ofNat 0x1FCC, [Char.ofNat 0x397, Char.ofNat 0x399]),
   (Char.ofNat 0x1FD0, [Char.ofNat 0x1FD8]),
   (Char.ofNat 0x1FD1, [Char.ofNat 0x1FD9]),
   (Char.ofNat 0x1FD2, [Char.ofNat 0x399, Char.ofNat 0x308, Char.ofNat 0x300]),
   (Char.ofNat 0x1FD3, [Char.ofNat 0x399, Char.ofNat 0x308, Char.ofNat 0x301]),
   (Char.ofNat 0x1FD6, [Char.ofNat 0x399, Char.ofNat 0x342]),
   (Char.ofNat 0x1FD7, [Char.ofNat 0x399, Char.ofNat 0x308, Char.ofNat 0x342]),
   (Char.ofNat 0x1FE0, [Char.ofNat 0x1FE8]),
   (Char.ofNat 0x1FE1, [Char.ofNat 0x1FE9]),
   (Char.ofNat 0x1FE2, [Char.ofNat 0x3A5, Char.ofNat 0x308, Char.ofNat 0x300]),
   (Char.ofNat 0x1FE3, [Char.ofNat 0x3A5, Char.ofNat 0x308, Char.ofNat 0x301]),
   (Char.ofNat 0x1FE4, [Char.ofNat 0x3A1, Char.ofNat 0x313]),
   (Char.ofNat 0x1FE5, [Char.ofNat 0x1FEC]),
   (Char.ofNat 0x1FE6, [Char.ofNat 0x3A5, Char.ofNat 0x342]),
   (Char.ofNat 0x1FE7, [Char.ofNat 0x3A5, Char.ofNat 0x308, Char.ofNat 0x342]),
   (Char.ofNat 0x1FF2, [Char.ofNat 0x1FFA, Char.ofNat 0x399]),
   (Char.ofNat 0x1FF3, [Char.ofNat 0x3A9, Char.ofNat 0x399]),
   (Char.ofNat 0x1FF4, [Char.ofNat 0x38F, Char.ofNat 0x399]),
   (Char.ofNat 0x1FF6, [Char.ofNat 0x3A9, Char.ofNat 0x342]),
   (Char.ofNat 0x1FF7, [Char.ofNat 0x3A9, Char.ofNat 0x342, Char.ofNat 0x399]),
   (Char.ofNat 0x1FFC, [Char.ofNat 0x3A9, Char.ofNat 0x399]),
   (Char.ofNat 0x214E, [Char.ofNat 0x2132]),
   (Char.ofNat 0x2170, [Char.ofNat 0x2160]),
   (Char.ofNat 0x2171, [Char.ofNat 0x2161]),
   (Char.ofNat 0x2172, [Char.ofNat 0x2162]),
   (Char.ofNat 0x2173, [Char.ofNat 0x2163]),
   (Char.ofNat 0x2174, [Char.ofNat 0x2164]),
   (Char.ofNat 0x2175, [Char.ofNat 0x2165]),
   (Char.ofNat 0x2176, [Char.ofNat 0x2166]),
   (Char.ofNat 0x2177, [Char.ofNat 0x2167]),
   (Char.ofNat 0x2178, [Char.ofNat 0x2168]),
   (Char.ofNat 0x2179, [Char.ofNat 0x2169]),
   (Char.ofNat 0x217A, [Char.ofNat 0x216A]),
   (Char.ofNat 0x217B, [Char.ofNat 0x216B]),
   (Char.ofNat 0x217C, [Char.ofNat 0x216C]),
   (Char.ofNat 0x217D, [Char.ofNat 0x216D]),
   (Char.ofNat 0x217E, [Char.ofNat 0x216E]),
   (Char.ofNat 0x217F, [Char.ofNat 0x216F]),
   (Char.ofNat 0x2184, [Char.ofNat 0x2183]),
   (Char.ofNat 0x24D0, [Char.ofNat 0x24B6]),
   (Char.ofNat 0x24D1, [Char.ofNat 0x24B7]),
   (Char.ofNat 0x24D2, [Char.ofNat 0x24B8]),
   (Char.ofNat 0x24D3, [Char.ofNat 0x24B9]),
   (Char.ofNat 0x24D4, [Char.ofNat 0x24BA]),
   (Char.ofNat 0x24D5, [Char.ofNat 0x24BB]),
   (Char.ofNat 0x24D6, [Char.ofNat 0x24BC]),
   (Char.ofNat 0x24D7, [Char.ofNat 0x24BD]),
   (Char.ofNat 0x24D8, [Char.ofNat 0x24BE]),
   (Char.ofNat 0x24D9, [Char.ofNat 0x24BF]),
   (Char.ofNat 0x24DA, [Char.ofNat 0x24C0]),
   (Char.ofNat 0x24DB, [Char.ofNat 0x24C1]),
   (Char.ofNat 0x24DC, [Char.ofNat 0x24C2]),
   (Char.ofNat 0x24DD, [Char.ofNat 0x24C3]),
   (Char.ofNat 0x24DE, [Char.ofNat 0x24C4]),
   (Char.ofNat 0x24DF, [Char.ofNat 0x24C5]),
   (Char.ofNat 0x24E0, [Char.ofNat 0x24C6]),
   (Char.ofNat 0x24E1, [Char.ofNat 0x24C7]),
   (Char.ofNat 0x24E2, [Char.ofNat 0x24C8]),
   (Char.ofNat 0x24E3, [Char.ofNat 0x24C9]),
   (Char.ofNat 0x24E4, [Char.ofNat 0x24CA]),
   (Char.ofNat 0x24E5, [Char.ofNat 0x24CB]),
   (Char.ofNat 0x24E6, [Char.ofNat 0x24CC]),
   (Char.ofNat 0x24E7, [Char.ofNat 0x24CD]),
   (Char.ofNat 0x24E8, [Char.ofNat 0x24CE]),
   (Char.ofNat 0x24E9, [Char.ofNat 0x24CF]),
   (Char.ofNat 0x2C30, [Char.ofNat 0x2C00]),
   (Char.ofNat 0x2C31, [Char.ofNat 0x2C01]),
   (Char.ofNat 0x2C32, [Char.ofNat 0x2C02]),
   (Char.ofNat 0x2C33, [Char.ofNat 0x2C03]),
   (Char.ofNat 0x2C34, [Char.ofNat 0x2C04]),
   (Char.ofNat 0x2C35, [Char.ofNat 0x2C05]),
   (Char.ofNat 0x2C36, [Char.ofNat 0x2C06]),
   (Char.ofNat 0x2C37, [Char.ofNat 0x2C07]),
   (Char.ofNat 0x2C38, [Char.ofNat 0x2C08]),
   (Char.ofNat 0x2C39, [Char.ofNat 0x2C09]),
   (Char.ofNat 0x2C3A, [Char.ofNat 0x2C0A]),
   (Char.ofNat 0x2C3B, [Char.ofNat 0x2C0B]),
   (Char.ofNat 0x2C3C, [Char.ofNat 0x2C0C]),
   (Char.ofNat 0x2C3D, [Char.ofNat 0x2C0D]),
   (Char.ofNat 0x2C3E, [Char.ofNat 0x2C0E]),
   (Char.ofNat 0x2C3F, [Char.ofNat 0x2C0F]),
   (Char.ofNat 0x2C40, [Char.ofNat 0x2C10]),
   (Char.ofNat 0x2C41, [Char.ofNat 0x2C11]),
   (Char.ofNat 0x2C42, [Char.ofNat 0x2C12]),
   (Char.ofNat 0x2C43, [Char.ofNat 0x2C13]),
   (Char.ofNat 0x2C44, [Char.ofNat 0x2C14]),
   (Char.ofNat 0x2C45, [Char.ofNat 0x2C15]),
   (Char.ofNat 0x2C46, [Char.ofNat 0x2C16]),
   (Char.ofNat 0x2C47, [Char.ofNat 0x2C17]),
   (Char.ofNat 0x2C48, [Char.ofNat 0x2C18]),
   (Char.ofNat 0x2C49, [Char.ofNat 0x2C19]),
   (Char.ofNat 0x2C4A, [Char.ofNat 0x2C1A]),
   (Char.ofNat 0x2C4B, [Char.ofNat 0x2C1B]),
   (Char.ofNat 0x2C4C, [Char.ofNat 0x2C1C]),
   (Char.ofNat 0x2C4D, [Char.ofNat 0x2C1D]),
   (Char.ofNat 0x2C4E, [Char.ofNat 0x2C1E]),
   (Char.ofNat 0x2C4F, [Char.ofNat 0x2C1F]),
   (Char.ofNat 0x2C50, [Char.ofNat 0x2C20]),
   (Char.ofNat 0x2C51, [Char.ofNat 0x2C21]),
   (Char.ofNat 0x2C52, [Char.ofNat 0x2C22]),
   (Char.ofNat 0x2C53, [Char.ofNat 0x2C23]),
   (Char.ofNat 0x2C54, [Char.ofNat 0x2C24]),
   (Char.ofNat 0x2C55, [Char.ofNat 0x2C25]),
   (Char.ofNat 0x2C56, [Char.ofNat 0x2C26]),
   (Char.ofNat 0x2C57, [Char.ofNat 0x2C27]),
   (Char.ofNat 0x2C58, [Char.ofNat 0x2C28]),
   (Char.ofNat 0x2C59, [Char.ofNat 0x2C29]),
   (Char.ofNat 0x2C5A, [Char.ofNat 0x2C2A]),
   (Char.ofNat 0x2C5B, [Char.ofNat 0x2C2B]),
   (Char.ofNat 0x2C5C, [Char.ofNat 0x2C2C]),
   (Char.ofNat 0x2C5D, [Char.ofNat 0x2C2D]),
   (Char.ofNat 0x2C5E, [Char.ofNat 0x2C2E]),
   (Char.ofNat 0x2C5F, [Char.ofNat 0x2C2F]),
   (Char.ofNat 0x2C61, [Char.ofNat 0x2C60]),
   (Char.ofNat 0x2C65, [Char.ofNat 0x23A]),
   (Char.ofNat 0x2C66, [Char.ofNat 0x23E]),
   (Char.ofNat 0x2C68, [Char.ofNat 0x2C67]),
   (Char.ofNat 0x2C6A, [Char.ofNat 0x2C69]),
   (Char.ofNat 0x2C6C, [Char.ofNat 0x2C6B]),
   (Char.ofNat 0x2C73, [Char.ofNat 0x2C72]),
   (Char.ofNat 0x2C76, [Char.ofNat 0x2C75]),
   (Char.ofNat 0x2C81, [Char.ofNat 0x2C80]),
   (Char.ofNat 0x2C83, [Char.ofNat 0x2C82]),
   (Char.ofNat 0x2C85, [Char.ofNat 0x2C84]),
   (Char.ofNat 0x2C87, [Char.ofNat 0x2C86]),
   (Char.ofNat 0x2C89, [Char.ofNat 0x2C88]),
   (Char.ofNat 0x2C8B, [Char.ofNat 0x2C8A]),
   (Char.ofNat 0x2C8D, [Char.ofNat 0x2C8C]),
   (Char.ofNat 0x2C8F, [Char.ofNat 0x2C8E]),
   (Char.ofNat 0x2C91, [Char.ofNat 0x2C90]),
   (Char.ofNat 0x2C93, [Char.ofNat 0x2C92]),
   (Char.ofNat 0x2C95, [Char.ofNat 0x2C94]),
   (Char.ofNat 0x2C97, [Char.ofNat 0x2C96]),
   (Char.ofNat 0x2C99, [Char.ofNat 0x2C98]),
   (Char.ofNat 0x2C9B, [Char.ofNat 0x2C9A]),
   (Char.ofNat 0x2C9D, [Char.ofNat 0x2C9C]),
   (Char.ofNat 0x2C9F, [Char.ofNat 0x2C9E]),
   (Char.ofNat 0x2CA1, [Char.ofNat 0x2CA0]),
   (Char.ofNat 0x2CA3, [Char.ofNat 0x2CA2]),
   (Char.ofNat 0x2CA5, [Char.ofNat 0x2CA4]),
   (Char.ofNat 0x2CA7, [Char.ofNat 0x2CA6]),
   (Char.ofNat 0x2CA9, [Char.ofNat 0x2CA8]),
   (Char.ofNat 0x2CAB, [Char.ofNat 0x2CAA]),
   (Char.ofNat 0x2CAD, [Char.ofNat 0x2CAC]),
   (Char.ofNat 0x2CAF, [Char.ofNat 0x2CAE]),
   (Char.ofNat 0x2CB1, [Char.ofNat 0x2CB0]),
   (Char.ofNat 0x2CB3, [Char.ofNat 0x2CB2]),
   (Char.ofNat 0x2CB5, [Char.ofNat 0x2CB4]),
   (Char.ofNat 0x2CB7, [Char.ofNat 0x2CB6]),
   (Char.ofNat 0x2CB9, [Char.ofNat 0x2CB8]),
   (Char.ofNat 0x2CBB, [Char.ofNat 0x2CBA]),
   (Char.ofNat 0x2CBD, [Char.ofNat 0x2CBC]),
   (Char.ofNat 0x2CBF, [Char.ofNat 0x2CBE]),
   (Char.ofNat 0x2CC1, [Char.ofNat 0x2CC0]),
   (Char.ofNat 0x2CC3, [Char.ofNat 0x2CC2]),
   (Char.ofNat 0x2CC5, [Char.ofNat 0x2CC4]),
   (Char.ofNat 0x2CC7, [Char.ofNat 0x2CC6]),
   (Char.ofNat 0x2CC9, [Char.ofNat 0x2CC8]),
   (Char.ofNat 0x2CCB, [Char.ofNat 0x2CCA]),
   (Char.ofNat 0x2CCD, [Char.ofNat 0x2CCC]),
   (Char.ofNat 0x2CCF, [Char.ofNat 0x2CCE]),
   (Char.ofNat 0x2CD1, [Char.ofNat 0x2CD0]),
   (Char.ofNat 0x2CD3, [Char.ofNat 0x2CD2]),
   (Char.ofNat 0x2CD5, [Char.ofNat 0x2CD4]),
   (Char.ofNat 0x2CD7, [Char.ofNat 0x2CD6]),
   (Char.ofNat 0x2CD9, [Char.ofNat 0x2CD8]),
   (Char.ofNat 0x2CDB, [Char.ofNat 0x2CDA]),
   (Char.ofNat 0x2CDD, [Char.ofNat 0x2CDC]),
   (Char.ofNat 0x2CDF, [Char.ofNat 0x2CDE]),
   (Char.ofNat 0x2CE1, [Char.ofNat 0x2CE0]),
   (Char.ofNat 0x2CE3, [Char.ofNat 0x2CE2]),
   (Char.ofNat 0x2CEC, [Char.ofNat 0x2CEB]),
   (Char.ofNat 0x2CEE, [Char.ofNat 0x2CED]),
   (Char.ofNat 0x2CF3, [Char.ofNat 0x2CF2]),
   (Char.ofNat 0x2D00, [Char.ofNat 0x10A0]),
   (Char.ofNat 0x2D01, [Char.ofNat 0x10A1]),
   (Char.ofNat 0x2D02, [Char.ofNat 0x10A2]),
   (Char.ofNat 0x2D03, [Char.ofNat 0x10A3]),
   (Char.ofNat 0x2D04, [Char.ofNat 0x10A4]),
   (Char.ofNat 0x2D05, [Char.ofNat 0x10A5]),
   (Char.ofNat 0x2D06, [Char.ofNat 0x10A6]),
   (Char.ofNat 0x2D07, [Char.ofNat 0x10A7]),
   (Char.ofNat 0x2D08, [Char.ofNat 0x10A8]),
   (Char.ofNat 0x2D09, [Char.ofNat 0x10A9]),
   (Char.ofNat 0x2D0A, [Char.ofNat 0x10AA]),
   (Char.ofNat 0x2D0B, [Char.ofNat 0x10AB]),
   (Char.ofNat 0x2D0C, [Char.ofNat 0x10AC]),
   (Char.ofNat 0x2D0D, [Char.ofNat 0x10AD]),
   (Char.ofNat 0x2D0E, [Char.ofNat 0x10AE]),
   (Char.ofNat 0x2D0F, [Char.ofNat 0x10AF]),
   (Char.ofNat 0x2D10, [Char.ofNat 0x10B0]),
   (Char.ofNat 0x2D11, [Char.ofNat 0x10B1]),
   (Char.ofNat 0x2D12, [Char.ofNat 0x10B2]),
   (Char.ofNat 0x2D13, [Char.ofNat 0x10B3]),
   (Char.ofNat 0x2D14, [Char.ofNat 0x10B4]),
   (Char.ofNat 0x2D15, [Char.ofNat 0x10B5]),
   (Char.ofNat 0x2D16, [Char.ofNat 0x10B6]),
   (Char.ofNat 0x2D17, [Char.ofNat 0x10B7]),
   (Char.ofNat 0x2D18, [Char.ofNat 0x10B8]),
   (Char.ofNat 0x2D19, [Char.ofNat 0x10B9]),
   (Char.ofNat 0x2D1A, [Char.ofNat 0x10BA]),
   (Char.ofNat 0x2D1B, [Char.ofNat 0x10BB]),
   (Char.ofNat 0x2D1C, [Char.ofNat 0x10BC]),
   (Char.ofNat 0x2D1D, [Char.ofNat 0x10BD]),
   (Char.ofNat 0x2D1E, [Char.ofNat 0x10BE]),
   (Char.ofNat 0x2D1F, [Char.ofNat 0x10BF]),
   (Char.ofNat 0x2D20, [Char.ofNat 0x10C0]),
   (Char.ofNat 0x2D21, [Char.ofNat 0x10C1]),
   (Char.ofNat 0x2D22, [Char.ofNat 0x10C2]),
   (Char.ofNat 0x2D23, [Char.ofNat 0x10C3]),
   (Char.ofNat 0x2D24, [Char.ofNat 0x10C4]),
   (Char.ofNat 0x2D25, [Char.ofNat 0x10C5]),
   (Char.ofNat 0x2D27, [Char.ofNat 0x10C7]),
   (Char.ofNat 0x2D2D, [Char.ofNat 0x10CD]),
   (Char.ofNat 0xA641, [Char.ofNat 0xA640]),
   (Char.ofNat 0xA643, [Char.ofNat 0xA642]),
   (Char.ofNat 0xA645, [Char.ofNat 0xA644]),
   (Char.ofNat 0xA647, [Char.ofNat 0xA646]),
   (Char.ofNat 0xA649, [Char.ofNat 0xA648]),
   (Char.ofNat 0xA64B, [Char.ofNat 0xA64A]),
   (Char.ofNat 0xA64D, [Char.ofNat 0xA64C]),
   (Char.ofNat 0xA64F, [Char.ofNat 0xA64E]),
   (Char.ofNat 0xA651, [Char.ofNat 0xA650]),
   (Char.ofNat 0xA653, [Char.ofNat 0xA652]),
   (Char.ofNat 0xA655, [Char.ofNat 0xA654]),
   (Char.ofNat 0xA657, [Char.ofNat 0xA656]),
   (Char.ofNat 0xA659, [Char.ofNat 0xA658]),
   (Char.ofNat 0xA65B, [Char.ofNat 0xA65A]),
   (Char.ofNat 0xA65D, [Char.ofNat 0xA65C]),
   (Char.ofNat 0xA65F, [Char.ofNat 0xA65E]),
   (Char.ofNat 0xA661, [Char.ofNat 0xA660]),
   (Char.ofNat 0xA663, [Char.ofNat 0xA662]),
   (Char.ofNat 0xA665, [Char.ofNat 0xA664]),
   (Char.ofNat 0xA667, [Char.ofNat 0xA666]),
   (Char.ofNat 0xA669, [Char.ofNat 0xA668]),
   (Char.ofNat 0xA66B, [Char.ofNat 0xA66A]),
   (Char.ofNat 0xA66D, [Char.ofNat 0xA66C]),
   (Char.ofNat 0xA681, [Char.ofNat 0xA680]),
   (Char.ofNat 0xA683, [Char.ofNat 0xA682]),
   (Char.ofNat 0xA685, [Char.ofNat 0xA684]),
   (Char.ofNat 0xA687, [Char.ofNat 0xA686]),
   (Char.ofNat 0xA689, [Char.ofNat 0xA688]),
   (Char.ofNat 0xA68B, [Char.ofNat 0xA68A]),
   (Char.ofNat 0xA68D, [Char.ofNat 0xA68C]),
   (Char.ofNat 0xA68F, [Char.ofNat 0xA68E]),
   (Char.ofNat 0xA691, [Char.ofNat 0xA690]),
   (Char.ofNat 0xA693, [Char.ofNat 0xA692]),
   (Char.ofNat 0xA695, [Char.ofNat 0xA694]),
   (Char.ofNat 0xA697, [Char.ofNat 0xA696]),
   (Char.ofNat 0xA699, [Char.ofNat 0xA698]),
   (Char.ofNat 0xA69B, [Char.ofNat 0xA69A]),
   (Char.ofNat 0xA723, [Char.ofNat 0xA722]),
   (Char.ofNat 0xA725, [Char.ofNat 0xA724]),
   (Char.ofNat 0xA727, [Char.ofNat 0xA726]),
   (Char.ofNat 0xA729, [Char.ofNat 0xA728]),
   (Char.ofNat 0xA72B, [Char.ofNat 0xA72A]),
   (Char.ofNat 0xA72D, [Char.ofNat 0xA72C]),
   (Char.ofNat 0xA72F, [Char.ofNat 0xA72E]),
   (Char.ofNat 0xA733, [Char.ofNat 0xA732]),
   (Char.ofNat 0xA735, [Char.ofNat 0xA734]),
   (Char.ofNat 0xA737, [Char.ofNat 0xA736]),
   (Char.ofNat 0xA739, [Char.ofNat 0xA738]),
   (Char.ofNat 0xA73B, [Char.ofNat 0xA73A]),
   (Char.ofNat 0xA73D, [Char.ofNat 0xA73C]),
   (Char.ofNat 0xA73F, [Char.ofNat 0xA73E]),
   (Char.ofNat 0xA741, [Char.ofNat 0xA740]),
   (Char.ofNat 0xA743, [Char.ofNat 0xA742]),
   (Char.ofNat 0xA745, [Char.ofNat 0xA744]),
   (Char.ofNat 0xA747, [Char.ofNat 0xA746]),
   (Char.ofNat 0xA749, [Char.ofNat 0xA748]),
   (Char.ofNat 0xA74B, [Char.ofNat 0xA74A]),
   (Char.ofNat 0xA74D, [Char.ofNat 0xA74C]),
   (Char.ofNat 0xA74F, [Char.ofNat 0xA74E]),
   (Char.ofNat 0xA751, [Char.ofNat 0xA750]),
   (Char.ofNat 0xA753, [Char.ofNat 0xA752]),
   (Char.ofNat 0xA755, [Char.ofNat 0xA754]),
   (Char.ofNat 0xA757, [Char.ofNat 0xA756]),
   (Char.ofNat 0xA759, [Char.ofNat 0xA758]),
   (Char.ofNat 0xA75B, [Char.ofNat 0xA75A]),
   (Char.ofNat 0xA75D, [Char.ofNat 0xA75C]),
   (Char.ofNat 0xA75F, [Char.ofNat 0xA75E]),
   (Char.ofNat 0xA761, [Char.ofNat 0xA760]),
   (Char.ofNat 0xA763, [Char.ofNat 0xA762]),
   (Char.ofNat 0xA765, [Char.ofNat 0xA764]),
   (Char.ofNat 0xA767, [Char.ofNat 0xA766]),
   (Char.ofNat 0xA769, [Char.ofNat 0xA768]),
   (Char.ofNat 0xA76B, [Char.ofNat 0xA76A]),
   (Char.ofNat 0xA76D, [Char.ofNat 0xA76C]),
   (Char.ofNat 0xA76F, [Char.ofNat 0xA76E]),
   (Char.ofNat 0xA77A, [Char.ofNat 0xA779]),
   (Char.ofNat 0xA77C, [Char.ofNat 0xA77B]),
   (Char.ofNat 0xA77F, [Char.ofNat 0xA77E]),
   (Char.ofNat 0xA781, [Char.ofNat 0xA780]),
   (Char.ofNat 0xA783, [Char.ofNat 0xA782]),
   (Char.ofNat 0xA785, [Char.ofNat 0xA784]),
   (Char.ofNat 0xA787, [Char.ofNat 0xA786]),
   (Char.ofNat 0xA78C, [Char.ofNat 0xA78B]),
   (Char.ofNat 0xA791, [Char.ofNat 0xA790]),
   (Char.ofNat 0xA793, [Char.ofNat 0xA792]),
   (Char.ofNat 0xA794, [Char.ofNat 0xA7C4]),
   (Char.ofNat 0xA797, [Char.ofNat 0xA796]),
   (Char.ofNat 0xA799, [Char.ofNat 0xA798]),
   (Char.ofNat 0xA79B, [Char.ofNat 0xA79A]),
   (Char.ofNat 0xA79D, [Char.ofNat 0xA79C]),
   (Char.ofNat 0xA79F, [Char.ofNat 0xA79E]),
   (Char.ofNat 0xA7A1, [Char.ofNat 0xA7A0]),
   (Char.ofNat 0xA7A3, [Char.ofNat 0xA7A2]),
   (Char.ofNat 0xA7A5, [Char.ofNat 0xA7A4]),
   (Char.ofNat 0xA7A7, [Char.ofNat 0xA7A6]),
   (Char.ofNat 0xA7A9, [Char.ofNat 0xA7A8]),
   (Char.ofNat 0xA7B5, [Char.ofNat 0xA7B4]),
   (Char.ofNat 0xA7B7, [Char.ofNat 0xA7B6]),
   (Char.ofNat 0xA7B9, [Char.ofNat 0xA7B8]),
   (Char.ofNat 0xA7BB, [Char.ofNat 0xA7BA]),
   (Char.ofNat 0xA7BD, [Char.ofNat 0xA7BC]),
   (Char.ofNat 0xA7BF, [Char.ofNat 0xA7BE]),
   (Char.ofNat 0xA7C1, [Char.ofNat 0xA7C0]),
   (Char.ofNat 0xA7C3, [Char.ofNat 0xA7C2]),
   (Char.ofNat 0xA7C8, [Char.ofNat 0xA7C7]),
   (Char.ofNat 0xA7CA, [Char.ofNat 0xA7C9]),
   (Char.ofNat 0xA7D1, [Char.ofNat 0xA7D0]),
   (Char.ofNat 0xA7D7, [Char.ofNat 0xA7D6]),
   (Char.ofNat 0xA7D9, [Char.ofNat 0xA7D8]),
   (Char.ofNat 0xA7F6, [Char.ofNat 0xA7F5]),
   (Char.ofNat 0xAB53, [Char.ofNat 0xA7B3]),
   (Char.ofNat 0xAB70, [Char.ofNat 0x13A0]),
   (Char.ofNat 0xAB71, [Char.ofNat 0x13A1]),
   (Char.ofNat 0xAB72, [Char.ofNat 0x13A2]),
   (Char.ofNat 0xAB73, [Char.ofNat 0x13A3]),
   (Char.ofNat 0xAB74, [Char.ofNat 0x13A4]),
   (Char.ofNat 0xAB75, [Char.ofNat 0x13A5]),
   (Char.ofNat 0xAB76, [Char.ofNat 0x13A6]),
   (Char.ofNat 0xAB77, [Char.ofNat 0x13A7]),
   (Char.ofNat 0xAB78, [Char.ofNat 0x13A8]),
   (Char.ofNat 0xAB79, [Char.ofNat 0x13A9]),
   (Char.ofNat 0xAB7A, [Char.ofNat 0x13AA]),
   (Char.ofNat 0xAB7B, [Char.ofNat 0x13AB]),
   (Char.ofNat 0xAB7C, [Char.ofNat 0x13AC]),
   (Char.ofNat 0xAB7D, [Char.ofNat 0x13AD]),
   (Char.ofNat 0xAB7E, [Char.ofNat 0x13AE]),
   (Char.ofNat 0xAB7F, [Char.ofNat 0x13AF]),
   (Char.ofNat 0xAB80, [Char.ofNat 0x13B0]),
   (Char.ofNat 0xAB81, [Char.ofNat 0x13B1]),
   (Char.ofNat 0xAB82, [Char.ofNat 0x13B2]),
   (Char.ofNat 0xAB83, [Char.ofNat 0x13B3]),
   (Char.ofNat 0xAB84, [Char.ofNat 0x13B4]),
   (Char.ofNat 0xAB85, [Char.ofNat 0x13B5]),
   (Char.ofNat 0xAB86, [Char.ofNat 0x13B6]),
   (Char.ofNat 0xAB87, [Char.ofNat 0x13B7]),
   (Char.ofNat 0xAB88, [Char.ofNat 0x13B8]),
   (Char.ofNat 0xAB89, [Char.ofNat 0x13B9]),
   (Char.ofNat 0xAB8A, [Char.ofNat 0x13BA]),
   (Char.ofNat 0xAB8B, [Char.ofNat 0x13BB]),
   (Char.ofNat 0xAB8C, [Char.ofNat 0x13BC]),
   (Char.ofNat 0xAB8D, [Char.ofNat 0x13BD]),
   (Char.ofNat 0xAB8E, [Char.ofNat 0x13BE]),
   (Char.ofNat 0xAB8F, [Char.ofNat 0x13BF]),
   (Char.ofNat 0xAB90, [Char.ofNat 0x13C0]),
   (Char.ofNat 0xAB91, [Char.ofNat 0x13C1]),
   (Char.ofNat 0xAB92, [Char.ofNat 0x13C2]),
   (Char.ofNat 0xAB93, [Char.ofNat 0x13C3]),
   (Char.ofNat 0xAB94, [Char.ofNat 0x13C4]),
   (Char.ofNat 0xAB95, [Char.ofNat 0x13C5]),
   (Char.ofNat 0xAB96, [Char.ofNat 0x13C6]),
   (Char.ofNat 0xAB97, [Char.ofNat 0x13C7]),
   (Char.ofNat 0xAB98, [Char.ofNat 0x13C8]),
   (Char.ofNat 0xAB99, [Char.ofNat 0x13C9]),
   (Char.ofNat 0xAB9A, [Char.ofNat 0x13CA]),
   (Char.ofNat 0xAB9B, [Char.ofNat 0x13CB]),
   (Char.ofNat 0xAB9C, [Char.ofNat 0x13CC]),
   (Char.ofNat 0xAB9D, [Char.ofNat 0x13CD]),
   (Char.ofNat 0xAB9E, [Char.ofNat 0x13CE]),
   (Char.ofNat 0xAB9F, [Char.ofNat 0x13CF]),
   (Char.ofNat 0xABA0, [Char.ofNat 0x13D0]),
   (Char.ofNat 0xABA1, [Char.ofNat 0x13D1]),
   (Char.ofNat 0xABA2, [Char.ofNat 0x13D2]),
   (Char.ofNat 0xABA3, [Char.ofNat 0x13D3]),
   (Char.ofNat 0xABA4, [Char.ofNat 0x13D4])]

/-- Part 4 of `pyUpperTable`. -/
def pyUpperTable4 : List (Char × List Char) :=
  [(Char.ofNat 0xABA5, [Char.ofNat 0x13D5]),
   (Char.ofNat 0xABA6, [Char.ofNat 0x13D6]),
   (Char.ofNat 0xABA7, [Char.ofNat 0x13D7]),
   (Char.ofNat 0xABA8, [Char.ofNat 0x13D8]),
   (Char.ofNat 0xABA9, [Char.ofNat 0x13D9]),
   (Char.ofNat 0xABAA, [Char.ofNat 0x13DA]),
   (Char.ofNat 0xABAB, [Char.ofNat 0x13DB]),
   (Char.ofNat 0xABAC, [Char.ofNat 0x13DC]),
   (Char.ofNat 0xABAD, [Char.ofNat 0x13DD]),
   (Char.ofNat 0xABAE, [Char.ofNat 0x13DE]),
   (Char.ofNat 0xABAF, [Char.ofNat 0x13DF]),
   (Char.ofNat 0xABB0, [Char.ofNat 0x13E0]),
   (Char.ofNat 0xABB1, [Char.ofNat 0x13E1]),
   (Char.ofNat 0xABB2, [Char.ofNat 0x13E2]),
   (Char.ofNat 0xABB3, [Char.ofNat 0x13E3]),
   (Char.ofNat 0xABB4, [Char.ofNat 0x13E4]),
   (Char.ofNat 0xABB5, [Char.ofNat 0x13E5]),
   (Char.ofNat 0xABB6, [Char.ofNat 0x13E6]),
   (Char.ofNat 0xABB7, [Char.ofNat 0x13E7]),
   (Char.ofNat 0xABB8, [Char.ofNat 0x13E8]),
   (Char.ofNat 0xABB9, [Char.ofNat 0x13E9]),
   (Char.ofNat 0xABBA, [Char.ofNat 0x13EA]),
   (Char.ofNat 0xABBB, [Char.ofNat 0x13EB]),
   (Char.ofNat 0xABBC, [Char.ofNat 0x13EC]),
   (Char.ofNat 0xABBD, [Char.ofNat 0x13ED]),
   (Char.ofNat 0xABBE, [Char.ofNat 0x13EE]),
   (Char.ofNat 0xABBF, [Char.ofNat 0x13EF]),
   (Char.ofNat 0xFB00, [Char.ofNat 0x46, Char.ofNat 0x46]),
   (Char.ofNat 0xFB01, [Char.ofNat 0x46, Char.ofNat 0x49]),
   (Char.ofNat 0xFB02, [Char.ofNat 0x46, Char.ofNat 0x4C]),
   (Char.ofNat 0xFB03, [Char.ofNat 0x46, Char.ofNat 0x46, Char.ofNat 0x49]),
   (Char.ofNat 0xFB04, [Char.ofNat 0x46, Char.ofNat 0x46, Char.ofNat 0x4C]),
   (Char.ofNat 0xFB05, [Char.ofNat 0x53, Char.ofNat 0x54]),
   (Char.ofNat 0xFB06, [Char.ofNat 0x53, Char.ofNat 0x54]),
   (Char.ofNat 0xFB13, [Char.ofNat 0x544, Char.ofNat 0x546]),
   (Char.ofNat 0xFB14, [Char.ofNat 0x544, Char.ofNat 0x535]),
   (Char.ofNat 0xFB15, [Char.ofNat 0x544, Char.ofNat 0x53B]),
   (Char.ofNat 0xFB16, [Char.ofNat 0x54E, Char.ofNat 0x546]),
   (Char.ofNat 0xFB17, [Char.ofNat 0x544, Char.ofNat 0x53D]),
   (Char.ofNat 0xFF41, [Char.ofNat 0xFF21]),
   (Char.ofNat 0xFF42, [Char.ofNat 0xFF22]),
   (Char.ofNat 0xFF43, [Char.ofNat 0xFF23]),
   (Char.ofNat 0xFF44, [Char.ofNat 0xFF24]),
   (Char.ofNat 0xFF45, [Char.ofNat 0xFF25]),
   (Char.ofNat 0xFF46, [Char.ofNat 0xFF26]),
   (Char.ofNat 0xFF47, [Char.ofNat 0xFF27]),
   (Char.ofNat 0xFF48, [Char.ofNat 0xFF28]),
   (Char.ofNat 0xFF49, [Char.ofNat 0xFF29]),
   (Char.ofNat 0xFF4A, [Char.ofNat 0xFF2A]),
   (Char.ofNat 0xFF4B, [Char.ofNat 0xFF2B]),
   (Char.ofNat 0xFF4C, [Char.ofNat 0xFF2C]),
   (Char.ofNat 0xFF4D, [Char.ofNat 0xFF2D]),
   (Char.ofNat 0xFF4E, [Char.ofNat 0xFF2E]),
   (Char.ofNat 0xFF4F, [Char.ofNat 0xFF2F]),
   (Char.ofNat 0xFF50, [Char.ofNat 0xFF30]),
   (Char.ofNat 0xFF51, [Char.ofNat 0xFF31]),
   (Char.ofNat 0xFF52, [Char.ofNat 0xFF32]),
   (Char.ofNat 0xFF53, [Char.ofNat 0xFF33]),
   (Char.ofNat 0xFF54, [Char.ofNat 0xFF34]),
   (Char.ofNat 0xFF55, [Char.ofNat 0xFF35]),
   (Char.ofNat 0xFF56, [Char.ofNat 0xFF36]),
   (Char.ofNat 0xFF57, [Char.ofNat 0xFF37]),
   (Char.ofNat 0xFF58, [Char.ofNat 0xFF38]),
   (Char.ofNat 0xFF59, [Char.ofNat 0xFF39]),
   (Char.ofNat 0xFF5A, [Char.ofNat 0xFF3A]),
   (Char.ofNat 0x10428, [Char.ofNat 0x10400]),
   (Char.ofNat 0x10429, [Char.ofNat 0x10401]),
   (Char.ofNat 0x1042A, [Char.ofNat 0x10402]),
   (Char.ofNat 0x1042B, [Char.ofNat 0x10403]),
   (Char.ofNat 0x1042C, [Char.ofNat 0x10404]),
   (Char.ofNat 0x1042D, [Char.ofNat 0x10405]),
   (Char.ofNat 0x1042E, [Char.ofNat 0x10406]),
   (Char.ofNat 0x1042F, [Char.ofNat 0x10407]),
   (Char.ofNat 0x10430, [Char.ofNat 0x10408]),
   (Char.ofNat 0x10431, [Char.ofNat 0x10409]),
   (Char.ofNat 0x10432, [Char.ofNat 0x1040A]),
   (Char.ofNat 0x10433, [Char.ofNat 0x1040B]),
   (Char.ofNat 0x10434, [Char.ofNat 0x1040C]),
   (Char.ofNat 0x10435, [Char.ofNat 0x1040D]),
   (Char.ofNat 0x10436, [Char.ofNat 0x1040E]),
   (Char.ofNat 0x10437, [Char.ofNat 0x1040F]),
   (Char.ofNat 0x10438, [Char.ofNat 0x10410]),
   (Char.ofNat 0x10439, [Char.ofNat 0x10411]),
   (Char.ofNat 0x1043A, [Char.ofNat 0x10412]),
   (Char.ofNat 0x1043B, [Char.ofNat 0x10413]),
   (Char.ofNat 0x1043C, [Char.ofNat 0x10414]),
   (Char.ofNat 0x1043D, [Char.ofNat 0x10415]),
   (Char.ofNat 0x1043E, [Char.ofNat 0x10416]),
   (Char.ofNat 0x1043F, [Char.ofNat 0x10417]),
   (Char.ofNat 0x10440, [Char.ofNat 0x10418]),
   (Char.ofNat 0x10441, [Char.ofNat 0x10419]),
   (Char.ofNat 0x10442, [Char.ofNat 0x1041A]),
   (Char.ofNat 0x10443, [Char.ofNat 0x1041B]),
   (Char.ofNat 0x10444, [Char.ofNat 0x1041C]),
   (Char.ofNat 0x10445, [Char.ofNat 0x1041D]),
   (Char.ofNat 0x10446, [Char.ofNat 0x1041E]),
   (Char.ofNat 0x10447, [Char.ofNat 0x1041F]),
   (Char.ofNat 0x10448, [Char.ofNat 0x10420]),
   (Char.ofNat 0x10449, [Char.ofNat 0x10421]),
   (Char.ofNat 0x1044A, [Char.ofNat 0x10422]),
   (Char.ofNat 0x1044B, [Char.ofNat 0x10423]),
   (Char.ofNat 0x1044C, [Char.ofNat 0x10424]),
   (Char.ofNat 0x1044D, [Char.ofNat 0x10425]),
   (Char.ofNat 0x1044E, [Char.ofNat 0x10426]),
   (Char.ofNat 0x1044F, [Char.ofNat 0x10427]),
   (Char.ofNat 0x104D8, [Char.ofNat 0x104B0]),
   (Char.ofNat 0x104D9, [Char.ofNat 0x104B1]),
   (Char.ofNat 0x104DA, [Char.ofNat 0x104B2]),
   (Char.ofNat 0x104DB, [Char.ofNat 0x104B3]),
   (Char.ofNat 0x104DC, [Char.ofNat 0x104B4]),
   (Char.ofNat 0x104DD, [Char.ofNat 0x104B5]),
   (Char.ofNat 0x104DE, [Char.ofNat 0x104B6]),
   (Char.ofNat 0x104DF, [Char.ofNat 0x104B7]),
   (Char.ofNat 0x104E0, [Char.ofNat 0x104B8]),
   (Char.ofNat 0x104E1, [Char.ofNat 0x104B9]),
   (Char.ofNat 0x104E2, [Char.ofNat 0x104BA]),
   (Char.ofNat 0x104E3, [Char.ofNat 0x104BB]),
   (Char.ofNat 0x104E4, [Char.ofNat 0x104BC]),
   (Char.ofNat 0x104E5, [Char.ofNat 0x104BD]),
   (Char.ofNat 0x104E6, [Char.ofNat 0x104BE]),
   (Char.ofNat 0x104E7, [Char.ofNat 0x104BF]),
   (Char.ofNat 0x104E8, [Char.ofNat 0x104C0]),
   (Char.ofNat 0x104E9, [Char.ofNat 0x104C1]),
   (Char.ofNat 0x104EA, [Char.ofNat 0x104C2]),
   (Char.ofNat 0x104EB, [Char.ofNat 0x104C3]),
   (Char.ofNat 0x104EC, [Char.ofNat 0x104C4]),
   (Char.ofNat 0x104ED, [Char.ofNat 0x104C5]),
   (Char.ofNat 0x104EE, [Char.ofNat 0x104C6]),
   (Char.ofNat 0x104EF, [Char.ofNat 0x104C7]),
   (Char.ofNat 0x104F0, [Char.ofNat 0x104C8]),
   (Char.ofNat 0x104F1, [Char.ofNat 0x104C9]),
   (Char.ofNat 0x104F2, [Char.ofNat 0x104CA]),
   (Char.ofNat 0x104F3, [Char.ofNat 0x104CB]),
   (Char.ofNat 0x104F4, [Char.ofNat 0x104CC]),
   (Char.ofNat 0x104F5, [Char.ofNat 0x104CD]),
   (Char.ofNat 0x104F6, [Char.ofNat 0x104CE]),
   (Char.ofNat 0x104F7, [Char.ofNat 0x104CF]),
   (Char.ofNat 0x104F8, [Char.ofNat 0x104D0]),
   (Char.ofNat 0x104F9, [Char.ofNat 0x104D1]),
   (Char.ofNat 0x104FA, [Char.ofNat 0x104D2]),
   (Char.ofNat 0x104FB, [Char.ofNat 0x104D3]),
   (Char.ofNat 0x10597, [Char.ofNat 0x10570]),
   (Char.ofNat 0x10598, [Char.ofNat 0x10571]),
   (Char.ofNat 0x10599, [Char.ofNat 0x10572]),
   (Char.ofNat 0x1059A, [Char.ofNat 0x10573]),
   (Char.ofNat 0x1059B, [Char.ofNat 0x10574]),
   (Char.ofNat 0x1059C, [Char.ofNat 0x10575]),
   (Char.ofNat 0x1059D, [Char.ofNat 0x10576]),
   (Char.ofNat 0x1059E, [Char.ofNat 0x10577]),
   (Char.ofNat 0x1059F, [Char.ofNat 0x10578]),
   (Char.ofNat 0x105A0, [Char.ofNat 0x10579]),
   (Char.ofNat 0x105A1, [Char.ofNat 0x1057A]),
   (Char.ofNat 0x105A3, [Char.ofNat 0x1057C]),
   (Char.ofNat 0x105A4, [Char.ofNat 0x1057D]),
   (Char.ofNat 0x105A5, [Char.ofNat 0x1057E]),
   (Char.ofNat 0x105A6, [Char.ofNat 0x1057F]),
   (Char.ofNat 0x105A7, [Char.ofNat 0x10580]),
   (Char.ofNat 0x105A8, [Char.ofNat 0x10581]),
   (Char.ofNat 0x105A9, [Char.ofNat 0x10582]),
   (Char.ofNat 0x105AA, [Char.ofNat 0x10583]),
   (Char.ofNat 0x105AB, [Char.ofNat 0x10584]),
   (Char.ofNat 0x105AC, [Char.ofNat 0x10585]),
   (Char.ofNat 0x105AD, [Char.ofNat 0x10586]),
   (Char.ofNat 0x105AE, [Char.ofNat 0x10587]),
   (Char.ofNat 0x105AF, [Char.ofNat 0x10588]),
   (Char.ofNat 0x105B0, [Char.ofNat 0x10589]),
   (Char.ofNat 0x105B1, [Char.ofNat 0x1058A]),
   (Char.ofNat 0x105B3, [Char.ofNat 0x1058C]),
   (Char.ofNat 0x105B4, [Char.ofNat 0x1058D]),
   (Char.ofNat 0x105B5, [Char.ofNat 0x1058E]),
   (Char.ofNat 0x105B6, [Char.ofNat 0x1058F]),
   (Char.ofNat 0x105B7, [Char.ofNat 0x10590]),
   (Char.ofNat 0x105B8, [Char.ofNat 0x10591]),
   (Char.ofNat 0x105B9, [Char.ofNat 0x10592]),
   (Char.ofNat 0x105BB, [Char.ofNat 0x10594]),
   (Char.ofNat 0x105BC, [Char.ofNat 0x10595]),
   (Char.ofNat 0x10CC0, [Char.ofNat 0x10C80]),
   (Char.ofNat 0x10CC1, [Char.ofNat 0x10C81]),
   (Char.ofNat 0x10CC2, [Char.ofNat 0x10C82]),
   (Char.ofNat 0x10CC3, [Char.ofNat 0x10C83]),
   (Char.ofNat 0x10CC4, [Char.ofNat 0x10C84]),
   (Char.ofNat 0x10CC5, [Char.ofNat 0x10C85]),
   (Char.ofNat 0x10CC6, [Char.ofNat 0x10C86]),
   (Char.ofNat 0x10CC7, [Char.ofNat 0x10C87]),
   (Char.ofNat 0x10CC8, [Char.ofNat 0x10C88]),
   (Char.ofNat 0x10CC9, [Char.ofNat 0x10C89]),
   (Char.ofNat 0x10CCA, [Char.ofNat 0x10C8A]),
   (Char.ofNat 0x10CCB, [Char.ofNat 0x10C8B]),
   (Char.ofNat 0x10CCC, [Char.ofNat 0x10C8C]),
   (Char.ofNat 0x10CCD, [Char.ofNat 0x10C8D]),
   (Char.ofNat 0x10CCE, [Char.ofNat 0x10C8E]),
   (Char.ofNat 0x10CCF, [Char.ofNat 0x10C8F]),
   (Char.ofNat 0x10CD0, [Char.ofNat 0x10C90]),
   (Char.ofNat 0x10CD1, [Char.ofNat 0x10C91]),
   (Char.ofNat 0x10CD2, [Char.ofNat 0x10C92]),
   (Char.ofNat 0x10CD3, [Char.ofNat 0x10C93]),
   (Char.ofNat 0x10CD4, [Char.ofNat 0x10C94]),
   (Char.ofNat 0x10CD5, [Char.ofNat 0x10C95]),
   (Char.ofNat 0x10CD6, [Char.ofNat 0x10C96]),
   (Char.ofNat 0x10CD7, [Char.ofNat 0x10C97]),
   (Char.ofNat 0x10CD8, [Char.ofNat 0x10C98]),
   (Char.ofNat 0x10CD9, [Char.ofNat 0x10C99]),
   (Char.ofNat 0x10CDA, [Char.ofNat 0x10C9A]),
   (Char.ofNat 0x10CDB, [Char.ofNat 0x10C9B]),
   (Char.ofNat 0x10CDC, [Char.ofNat 0x10C9C]),
   (Char.ofNat 0x10CDD, [Char.ofNat 0x10C9D]),
   (Char.ofNat 0x10CDE, [Char.ofNat 0x10C9E]),
   (Char.ofNat 0x10CDF, [Char.ofNat 0x10C9F]),
   (Char.ofNat 0x10CE0, [Char.ofNat 0x10CA0]),
   (Char.ofNat 0x10CE1, [Char.ofNat 0x10CA1]),
   (Char.ofNat 0x10CE2, [Char.ofNat 0x10CA2]),
   (Char.ofNat 0x10CE3, [Char.ofNat 0x10CA3]),
   (Char.ofNat 0x10CE4, [Char.ofNat 0x10CA4]),
   (Char.ofNat 0x10CE5, [Char.ofNat 0x10CA5]),
   (Char.ofNat 0x10CE6, [Char.ofNat 0x10CA6]),
   (Char.ofNat 0x10CE7, [Char.ofNat 0x10CA7]),
   (Char.ofNat 0x10CE8, [Char.ofNat 0x10CA8]),
   (Char.ofNat 0x10CE9, [Char.ofNat 0x10CA9]),
   (Char.ofNat 0x10CEA, [Char.ofNat 0x10CAA]),
   (Char.ofNat 0x10CEB, [Char.ofNat 0x10CAB]),
   (Char.ofNat 0x10CEC, [Char.ofNat 0x10CAC]),
   (Char.ofNat 0x10CED, [Char.ofNat 0x10CAD]),
   (Char.ofNat 0x10CEE, [Char.ofNat 0x10CAE]),
   (Char.ofNat 0x10CEF, [Char.ofNat 0x10CAF]),
   (Char.ofNat 0x10CF0, [Char.ofNat 0x10CB0]),
   (Char.ofNat 0x10CF1, [Char.ofNat 0x10CB1]),
   (Char.ofNat 0x10CF2, [Char.ofNat 0x10CB2]),
   (Char.ofNat 0x118C0, [Char.ofNat 0x118A0]),
   (Char.ofNat 0x118C1, [Char.ofNat 0x118A1]),
   (Char.ofNat 0x118C2, [Char.ofNat 0x118A2]),
   (Char.ofNat 0x118C3, [Char.ofNat 0x118A3]),
   (Char.ofNat 0x118C4, [Char.ofNat 0x118A4]),
   (Char.ofNat 0x118C5, [Char.ofNat 0x118A5]),
   (Char.ofNat 0x118C6, [Char.ofNat 0x118A6]),
   (Char.ofNat 0x118C7, [Char.ofNat 0x118A7]),
   (Char.ofNat 0x118C8, [Char.ofNat 0x118A8]),
   (Char.ofNat 0x118C9, [Char.ofNat 0x118A9]),
   (Char.ofNat 0x118CA, [Char.ofNat 0x118AA]),
   (Char.ofNat 0x118CB, [Char.ofNat 0x118AB]),
   (Char.ofNat 0x118CC, [Char.ofNat 0x118AC]),
   (Char.ofNat 0x118CD, [Char.ofNat 0x118AD]),
   (Char.ofNat 0x118CE, [Char.ofNat 0x118AE]),
   (Char.ofNat 0x118CF, [Char.ofNat 0x118AF]),
   (Char.ofNat 0x118D0, [Char.ofNat 0x118B0]),
   (Char.ofNat 0x118D1, [Char.ofNat 0x118B1]),
   (Char.ofNat 0x118D2, [Char.ofNat 0x118B2]),
   (Char.ofNat 0x118D3, [Char.ofNat 0x118B3]),
   (Char.ofNat 0x118D4, [Char.ofNat 0x118B4]),
   (Char.ofNat 0x118D5, [Char.ofNat 0x118B5]),
   (Char.ofNat 0x118D6, [Char.ofNat 0x118B6]),
   (Char.ofNat 0x118D7, [Char.ofNat 0x118B7]),
   (Char.ofNat 0x118D8, [Char.ofNat 0x118B8]),
   (Char.ofNat 0x118D9, [Char.ofNat 0x118B9]),
   (Char.ofNat 0x118DA, [Char.ofNat 0x118BA]),
   (Char.ofNat 0x118DB, [Char.ofNat 0x118BB]),
   (Char.ofNat 0x118DC, [Char.ofNat 0x118BC]),
   (Char.ofNat 0x118DD, [Char.ofNat 0x118BD]),
   (Char.ofNat 0x118DE, [Char.ofNat 0x118BE]),
   (Char.ofNat 0x118DF, [Char.ofNat 0x118BF]),
   (Char.ofNat 0x16E60, [Char.ofNat 0x16E40]),
   (Char.ofNat 0x16E61, [Char.ofNat 0x16E41]),
   (Char.ofNat 0x16E62, [Char.ofNat 0x16E42]),
   (Char.ofNat 0x16E63, [Char.ofNat 0x16E43]),
   (Char.ofNat 0x16E64, [Char.ofNat 0x16E44]),
   (Char.ofNat 0x16E65, [Char.ofNat 0x16E45]),
   (Char.ofNat 0x16E66, [Char.ofNat 0x16E46]),
   (Char.ofNat 0x16E67, [Char.ofNat 0x16E47]),
   (Char.ofNat 0x16E68, [Char.ofNat 0x16E48]),
   (Char.ofNat 0x16E69, [Char.ofNat 0x16E49]),
   (Char.ofNat 0x16E6A, [Char.ofNat 0x16E4A]),
   (Char.ofNat 0x16E6B, [Char.ofNat 0x16E4B]),
   (Char.ofNat 0x16E6C, [Char.ofNat 0x16E4C]),
   (Char.ofNat 0x16E6D, [Char.ofNat 0x16E4D]),
   (Char.ofNat 0x16E6E, [Char.ofNat 0x16E4E]),
   (Char.ofNat 0x16E6F, [Char.ofNat 0x16E4F]),
   (Char.ofNat 0x16E70, [Char.ofNat 0x16E50]),
   (Char.ofNat 0x16E71, [Char.ofNat 0x16E51]),
   (Char.ofNat 0x16E72, [Char.ofNat 0x16E52]),
   (Char.ofNat 0x16E73, [Char.ofNat 0x16E53]),
   (Char.ofNat 0x16E74, [Char.ofNat 0x16E54]),
   (Char.ofNat 0x16E75, [Char.ofNat 0x16E55]),
   (Char.ofNat 0x16E76, [Char.ofNat 0x16E56]),
   (Char.ofNat 0x16E77, [Char.ofNat 0x16E57]),
   (Char.ofNat 0x16E78, [Char.ofNat 0x16E58]),
   (Char.ofNat 0x16E79, [Char.ofNat 0x16E59]),
   (Char.ofNat 0x16E7A, [Char.ofNat 0x16E5A]),
   (Char.ofNat 0x16E7B, [Char.ofNat 0x16E5B]),
   (Char.ofNat 0x16E7C, [Char.ofNat 0x16E5C]),
   (Char.ofNat 0x16E7D, [Char.ofNat 0x16E5D]),
   (Char.ofNat 0x16E7E, [Char.ofNat 0x16E5E]),
   (Char.ofNat 0x16E7F, [Char.ofNat 0x16E5F]),
   (Char.ofNat 0x1E922, [Char.ofNat 0x1E900]),
   (Char.ofNat 0x1E923, [Char.ofNat 0x1E901]),
   (Char.ofNat 0x1E924, [Char.ofNat 0x1E902]),
   (Char.ofNat 0x1E925, [Char.ofNat 0x1E903]),
   (Char.ofNat 0x1E926, [Char.ofNat 0x1E904]),
   (Char.ofNat 0x1E927, [Char.ofNat 0x1E905]),
   (Char.ofNat 0x1E928, [Char.ofNat 0x1E906]),
   (Char.ofNat 0x1E929, [Char.ofNat 0x1E907]),
   (Char.ofNat 0x1E92A, [Char.ofNat 0x1E908]),
   (Char.ofNat 0x1E92B, [Char.ofNat 0x1E909]),
   (Char.ofNat 0x1E92C, [Char.ofNat 0x1E90A]),
   (Char.ofNat 0x1E92D, [Char.ofNat 0x1E90B]),
   (Char.ofNat 0x1E92E, [Char.ofNat 0x1E90C]),
   (Char.ofNat 0x1E92F, [Char.ofNat 0x1E90D]),
   (Char.ofNat 0x1E930, [Char.ofNat 0x1E90E]),
   (Char.ofNat 0x1E931, [Char.ofNat 0x1E90F]),
   (Char.ofNat 0x1E932, [Char.ofNat 0x1E910]),
   (Char.ofNat 0x1E933, [Char.ofNat 0x1E911]),
   (Char.ofNat 0x1E934, [Char.ofNat 0x1E912]),
   (Char.ofNat 0x1E935, [Char.ofNat 0x1E913]),
   (Char.ofNat 0x1E936, [Char.ofNat 0x1E914]),
   (Char.ofNat 0x1E937, [Char.ofNat 0x1E915]),
   (Char.ofNat 0x1E938, [Char.ofNat 0x1E916]),
   (Char.ofNat 0x1E939, [Char.ofNat 0x1E917]),
   (Char.ofNat 0x1E93A, [Char.ofNat 0x1E918]),
   (Char.ofNat 0x1E93B, [Char.ofNat 0x1E919]),
   (Char.ofNat 0x1E93C, [Char.ofNat 0x1E91A]),
   (Char.ofNat 0x1E93D, [Char.ofNat 0x1E91B]),
   (Char.ofNat 0x1E93E, [Char.ofNat 0x1E91C]),
   (Char.ofNat 0x1E93F, [Char.ofNat 0x1E91D]),
   (Char.ofNat 0x1E940, [Char.ofNat 0x1E91E]),
   (Char.ofNat 0x1E941, [Char.ofNat 0x1E91F]),
   (Char.ofNat 0x1E942, [Char.ofNat 0x1E920]),
   (Char.ofNat 0x1E943, [Char.ofNat 0x1E921])]

/-- The full-case uppercase mapping of Python's `str.upper()`
(CPython 3.11, Unicode 14.0): every code point whose uppercase
mapping differs from itself, paired with that mapping (which can be
more than one character, e.g. ß ↦ SS).  `str.upper()` applies this
mapping to each character unconditionally. -/
def pyUpperTable : List (Char × List Char) :=
  pyUpperTable1 ++ pyUpperTable2 ++ pyUpperTable3 ++ pyUpperTable4

/-- Uppercase one character the way Python's `str.upper()` does:
look it up in the mapping table, else keep it. -/
def pyUpperChar (c : Char) : List Char :=
  match pyUpperTable.lookup c with
  | some u => u
  | none => [c]

/-- Python `str.upper()`: concatenate the uppercase mapping of each
character. -/
def pyUpper (s : String) : String :=
  ⟨s.data.flatMap pyUpperChar⟩

/-- Whether `needle` occurs at the start of `hay`. -/
def matchesAt : List Char → List Char → Bool
  | [], _ => true
  | _ :: _, [] => false
  | a :: as, b :: bs => a == b && matchesAt as bs

/-- Python's `needle in hay` substring test. -/
def hasSub (needle : List Char) : List Char → Bool
  | [] => matchesAt needle []
  | c :: rest => matchesAt needle (c :: rest) || hasSub needle rest

/-- The first component of Python `s.split(":", 1)`: the characters
before the first colon (the whole string when there is no colon). -/
def takeUntilColon : List Char → List Char
  | [] => []
  | c :: rest => if c == ':' then [] else c :: takeUntilColon rest

/-- Embedding of `move_str_to_direction_and_boost` from `visual_tron.py`: strip and
uppercase the move string; when it contains `":BOOST"` the direction
part is everything before the first colon and the boost flag is set
(the `dir_part, _ = split(":", 1)` unpacking cannot fail there, since a
colon is present); the direction part is looked up in `Direction`, and a
`KeyError` falls back to `(Direction.RIGHT, False)`. -/
def move_str_to_direction_and_boost (move_str : String) :
    Direction × Bool :=
  let m := pyUpper (pyStrip move_str)
  let use_boost := hasSub ":BOOST".data m.data
  let dir_part : String := if use_boost then ⟨takeUntilColon m.data⟩ else m
  match directionByName dir_part with
  | some direction_enum => (direction_enum, use_boost)
  | none => (Direction.RIGHT, false)

/-- The direction part `move_str_to_direction_and_boost` extracts from a
move string after stripping and uppercasing: everything before the first
colon when `":BOOST"` occurs in the string, the whole string
otherwise. -/
def normalizedDirPart (s : String) : String :=
  let m := pyUpper (pyStrip s)
  if hasSub ":BOOST".data m.data then ⟨takeUntilColon m.data⟩ else m

/-- Modelled from the spec: the name of a `Direction` member, for
stating claims about `Direction[name]` lookup. -/
def directionName : Direction → String
  | .UP => "UP"
  | .DOWN => "DOWN"
  | .LEFT => "LEFT"
  | .RIGHT => "RIGHT"

/-- The trail field `_get_head_position` reads for a given player
number: `agent1_trail` for player `1`, `agent2_trail` for every other
value. -/
def trailField (state : GameState) (player_number : Int) :
    Option (List (Int × Int)) :=
  if player_number = 1 then state.agent1_trail else state.agent2_trail

/-- The occupancy marker stored at the toroidally wrapped coordinate
`(x, y)`: row `y mod height`, column `x mod width`, `none` when the row
is too short to contain that column (a jagged grid). -/
def cellAt (board : List (List Int)) (x y : Int) : Option Int :=
  (board.get? ((y % (board.length : Int)).toNat)).bind
    (fun row => row.get? ((x % (((board.headD []).length : Nat) : Int)).toNat))

/-- The safety test `_choose_safe_direction` performs for one direction
from a given head, before wrapping (the wrap inside `_is_cell_safe`
makes prior wrapping immaterial). -/
def neighborSafe (board : List (List Int)) (head_x head_y : Int)
    (d : Dir4) : Option Bool :=
  isCellSafe board (head_x + (dirVec d).1) (head_y + (dirVec d).2)

/-- Replace the turn counter of a snapshot, keeping every other field. -/
def withTurn (state : GameState) (t : Int) : GameState :=
  ⟨state.board, state.agent1_trail, state.agent2_trail, some t,
    state.agent1_length, state.agent2_length, state.agent1_alive,
    state.agent2_alive, state.agent1_boosts, state.agent2_boosts⟩

/-- Build a snapshot with default values for the fields `choose_move`
never reads. -/
def mkState (b : List (List Int)) (t1 t2 : Option (List (Int × Int)))
    (tc : Option Int) : GameState :=
  ⟨b, t1, t2, tc, 0, 0, true, true, 0, 0⟩

/-- A jagged grid: the second row is shorter than the first, and the
player's head sits on it. -/
def jaggedState : GameState := mkState [[0, 0], []] (some [(0, 1)]) none (some 0)

/-- A fully empty 3×3 grid with the head at the centre. -/
def openState : GameState :=
  mkState [[0, 0, 0], [0, 0, 0], [0, 0, 0]] (some [(1, 1)]) none (some 0)

/-- A 3×3 grid where the only empty neighbour of the head `(1, 1)` is
the cell above it. -/
def oneFreeState : GameState :=
  mkState [[9, 0, 9], [1, 1, 1], [9, 1, 9]] (some [(1, 1)]) none (some 0)

/-- A 3×3 grid where every neighbour of the head `(1, 1)` is occupied. -/
def surroundedState : GameState :=
  mkState [[0, 1, 0], [1, 1, 1], [0, 1, 0]] (some [(1, 1)]) none (some 7)

/-- A snapshot with no board rows at all. -/
def emptyBoardState : GameState := mkState [] none none none

/-- A snapshot with a two-element trail for player 1. -/
def headState : GameState :=
  mkState [[0]] (some [(1, 2), (3, 4)]) (some [(9, 9)]) (some 5)

/-- Two snapshots agreeing on the board, player 1's trail and the turn
counter, but differing in player 2's trail and in every unused field. -/
def stateA : GameState :=
  ⟨[[0, 0], [0, 0]], some [(0, 0)], some [(1, 1)], some 2, 3, 4, true, true, 2, 2⟩

/-- See `stateA`. -/
def stateB : GameState :=
  ⟨[[0, 0], [0, 0]], some [(0, 0)], some [(0, 1), (1, 1)], some 2, 7, 8,
    false, false, 0, 5⟩

/-! Supporting lemmas. -/

theorem dirName_injective : Function.Injective dirName := by
  intro a b h
  cases a <;> cases b <;> first | rfl | (exfalso; simp [dirName] at h)

theorem DIRECTION_VECTORS_dirName (d : Dir4) :
    DIRECTION_VECTORS (dirName d) = some (dirVec d) := by
  cases d <;> rfl

theorem isCellSafe_emod (board : List (List Int)) (x y : Int) :
    isCellSafe board (x % (((board.headD []).length : Nat) : Int))
      (y % ((board.length : Nat) : Int)) = isCellSafe board x y := by
  have h1 : ∀ a : Int,
      a % (((board.headD []).length : Nat) : Int) % (((board.headD []).length : Nat) : Int)
        = a % (((board.headD []).length : Nat) : Int) :=
    fun a => Int.emod_emod_of_dvd a dvd_rfl
  have h2 : ∀ a : Int,
      a % ((board.length : Nat) : Int) % ((board.length : Nat) : Int)
        = a % ((board.length : Nat) : Int) :=
    fun a => Int.emod_emod_of_dvd a dvd_rfl
  simp only [isCellSafe, h1, h2]

theorem isCellSafe_isSome (board : List (List Int))
    (hb : board ≠ []) (h0 : board.headD [] ≠ [])
    (hrows : ∀ row ∈ board, (board.headD []).length ≤ row.length)
    (x y : Int) : ∃ b, isCellSafe board x y = some b := by
  have hh : board.length ≠ 0 := by simpa [List.length_eq_zero] using hb
  have hw : (board.headD []).length ≠ 0 := by
    simpa [List.length_eq_zero] using h0
  have hyn : (y % ((board.length : Nat) : Int)).toNat < board.length := by
    have h1 : ((board.length : Nat) : Int) ≠ 0 := by exact_mod_cast hh
    have h2 : (0 : Int) < ((board.length : Nat) : Int) := by
      omega
    have h3 := Int.emod_nonneg y h1
    have h4 := Int.emod_lt_of_pos y h2
    omega
  have hxn : (x % (((board.headD []).length : Nat) : Int)).toNat
      < (board.headD []).length := by
    have h1 : (((board.headD []).length : Nat) : Int) ≠ 0 := by exact_mod_cast hw
    have h2 : (0 : Int) < (((board.headD []).length : Nat) : Int) := by
      omega
    have h3 := Int.emod_nonneg x h1
    have h4 := Int.emod_lt_of_pos x h2
    omega
  obtain ⟨row, hrow⟩ : ∃ row,
      board.get? (y % ((board.length : Nat) : Int)).toNat = some row :=
    ⟨_, List.get?_eq_get hyn⟩
  have hrowmem : row ∈ board := List.get?_mem hrow
  have hlen : (board.headD []).length ≤ row.length := hrows row hrowmem
  obtain ⟨cell, hcell⟩ : ∃ cell,
      row.get? (x % (((board.headD []).length : Nat) : Int)).toNat = some cell :=
    ⟨_, List.get?_eq_get (lt_of_lt_of_le hxn hlen)⟩
  refine ⟨decide (cell = 0), ?_⟩
  simp only [isCellSafe, if_neg hh, if_neg hw, hrow, Option.some_bind, hcell]

theorem isCellSafe_eq_cellAt (board : List (List Int))
    (hb : board ≠ []) (h0 : board.headD [] ≠ []) (x y : Int) :
    isCellSafe board x y = (cellAt board x y).map (fun c => decide (c = 0)) := by
  unfold isCellSafe cellAt
  have hh : board.length ≠ 0 := by simpa [List.length_eq_zero] using hb
  have hw : (board.headD []).length ≠ 0 := by
    simpa [List.length_eq_zero] using h0
  simp only [hh, hw, if_false]
  cases (board.get? ((y % ((board.length : Nat) : Int)).toNat)).bind
      (fun row => row.get? ((x % (((board.headD []).length : Nat) : Int)).toNat)) with
  | none => rfl
  | some cell => rfl

theorem chooseSafeLoop_finds (board : List (List Int)) (hx hy : Int)
    (d₀ : Dir4)
    (hsafe : neighborSafe board hx hy d₀ = some true)
    (hblockedDirs : ∀ d, d ≠ d₀ → neighborSafe board hx hy d = some false) :
    ∀ l : List String, (∀ n ∈ l, ∃ d, n = dirName d) → dirName d₀ ∈ l →
      chooseSafeLoop board (board.headD []).length board.length hx hy l
        = some (dirName d₀) := by
  intro l
  induction l with
  | nil => intro _ hmem; simp at hmem
  | cons n rest ih =>
    intro hvalid hmem
    obtain ⟨d, rfl⟩ := hvalid n (List.mem_cons_self n rest)
    simp only [chooseSafeLoop, DIRECTION_VECTORS_dirName, candidateCell]
    rw [isCellSafe_emod board (hx + (dirVec d).1) (hy + (dirVec d).2)]
    by_cases hd : d = d₀
    · subst hd
      rw [show isCellSafe board (hx + (dirVec d).1) (hy + (dirVec d).2)
            = some true from hsafe]
      rfl
    · rw [show isCellSafe board (hx + (dirVec d).1) (hy + (dirVec d).2)
            = some false from hblockedDirs d hd]
      simp only [Bool.false_eq_true, if_false]
      refine ih (fun m hm => hvalid m (List.mem_cons_of_mem _ hm)) ?_
      rcases List.mem_cons.mp hmem with heq | hmem2
      · exact absurd (dirName_injective heq.symm) hd
      · exact hmem2

theorem chooseSafeLoop_fallback (board : List (List Int)) (hx hy : Int)
    (hblockedDirs : ∀ d, neighborSafe board hx hy d = some false) :
    ∀ l : List String, (∀ n ∈ l, ∃ d, n = dirName d) →
      chooseSafeLoop board (board.headD []).length board.length hx hy l
        = some "RIGHT" := by
  intro l
  induction l with
  | nil => intro _; rfl
  | cons n rest ih =>
    intro hvalid
    obtain ⟨d, rfl⟩ := hvalid n (List.mem_cons_self n rest)
    simp only [chooseSafeLoop, DIRECTION_VECTORS_dirName, candidateCell]
    rw [isCellSafe_emod board (hx + (dirVec d).1) (hy + (dirVec d).2)]
    rw [show isCellSafe board (hx + (dirVec d).1) (hy + (dirVec d).2)
          = some false from hblockedDirs d]
    simp only [Bool.false_eq_true, if_false]
    exact ih (fun m hm => hvalid m (List.mem_cons_of_mem _ hm))

theorem chooseSafeLoop_total (board : List (List Int)) (hx hy : Int)
    (hb : board ≠ []) (h0 : board.headD [] ≠ [])
    (hrows : ∀ row ∈ board, (board.headD []).length ≤ row.length) :
    ∀ l : List String, (∀ n ∈ l, ∃ d, n = dirName d) →
      ∃ r, chooseSafeLoop board (board.headD []).length board.length hx hy l
          = some r ∧ (r ∈ l ∨ r = "RIGHT") := by
  intro l
  induction l with
  | nil => exact fun _ => ⟨"RIGHT", rfl, Or.inr rfl⟩
  | cons n rest ih =>
    intro hvalid
    obtain ⟨d, rfl⟩ := hvalid n (List.mem_cons_self n rest)
    obtain ⟨b, hbval⟩ := isCellSafe_isSome board hb h0 hrows
      (hx + (dirVec d).1) (hy + (dirVec d).2)
    simp only [chooseSafeLoop, DIRECTION_VECTORS_dirName, candidateCell]
    rw [isCellSafe_emod board (hx + (dirVec d).1) (hy + (dirVec d).2), hbval]
    cases b with
    | true =>
      exact ⟨dirName d, rfl, Or.inl (List.mem_cons_self _ _)⟩
    | false =>
      simp only [Bool.false_eq_true, if_false]
      obtain ⟨r, hr, hmem⟩ := ih (fun m hm => hvalid m (List.mem_cons_of_mem _ hm))
      refine ⟨r, hr, ?_⟩
      rcases hmem with hmem | hmem
      · exact Or.inl (List.mem_cons_of_mem _ hmem)
      · exact Or.inr hmem

theorem preferredOrder_cases (t : Int) :
    preferredOrder t = ["RIGHT", "DOWN", "UP", "LEFT"] ∨
    preferredOrder t = ["DOWN", "LEFT", "RIGHT", "UP"] ∨
    preferredOrder t = ["LEFT", "UP", "DOWN", "RIGHT"] ∨
    preferredOrder t = ["UP", "RIGHT", "LEFT", "DOWN"] := by
  simp only [preferredOrder]
  split_ifs <;> simp

theorem preferredOrder_valid (t : Int) :
    ∀ n ∈ preferredOrder t, ∃ d, n = dirName d := by
  rcases preferredOrder_cases t with h | h | h | h <;> rw [h] <;> decide

theorem dirName_mem_preferredOrder (t : Int) (d₀ : Dir4) :
    dirName d₀ ∈ preferredOrder t := by
  rcases preferredOrder_cases t with h | h | h | h <;> rw [h] <;>
    cases d₀ <;> decide

theorem preferredOrder_subset (t : Int) :
    ∀ n ∈ preferredOrder t, n ∈ ["UP", "DOWN", "LEFT", "RIGHT"] := by
  rcases preferredOrder_cases t with h | h | h | h <;> rw [h] <;> decide

theorem choose_move_eq_loop (state : GameState) (b p : Int)
    (hb : state.board ≠ []) (h0 : state.board.headD [] ≠ []) :
    choose_move state b p
      = chooseSafeLoop state.board (state.board.headD []).length
          state.board.length (getHeadPosition state p).1
          (getHeadPosition state p).2
          (preferredOrder ((state.turn_count).getD 0)) := by
  have hh : state.board.length ≠ 0 := by simpa [List.length_eq_zero] using hb
  have hw : (state.board.headD []).length ≠ 0 := by
    simpa [List.length_eq_zero] using h0
  have hdeg : ¬(state.board = [] ∨ state.board.headD [] = []) := by
    rintro (h | h)
    · exact hb h
    · exact h0 h
  simp only [choose_move, if_neg hb, chooseSafeDirection, getBoardSize,
    if_neg hdeg]
  rw [if_neg (by rintro (h | h) <;> omega)]

theorem choose_move_right_degenerate (state : GameState) (b p : Int)
    (h : state.board = [] ∨ state.board.headD [] = []) :
    choose_move state b p = some "RIGHT" := by
  rcases h with h | h
  · simp [choose_move, h]
  · by_cases hb : state.board = []
    · simp [choose_move, hb]
    · simp only [choose_move, if_neg hb, chooseSafeDirection, getBoardSize,
        if_pos (Or.inr h)]
      rfl

theorem choose_move_turn_congr (state : GameState) (b p : Int)
    (t1 t2 : Int) (h : t1 % 4 = t2 % 4) :
    choose_move (withTurn state t1) b p
      = choose_move (withTurn state t2) b p := by
  have hpo : preferredOrder t1 = preferredOrder t2 := by
    unfold preferredOrder
    rw [h]
  simp only [choose_move, withTurn, Option.getD_some, hpo]
  rfl

/-! Claim theorems. -/

/-- C1 (counterexample): `choose_move` does not terminate normally on
every snapshot — on the jagged board `[[0, 0], []]` with the player's
head at `(0, 1)`, reading `board[1][1]` raises `IndexError` (the
embedding returns `none`), so no direction string is returned. -/
theorem choose_move_jagged_raises : choose_move jaggedState 0 1 = none := by
  decide

/-- C1 (amended): for every snapshot whose board rows are all at least
as long as the first row — in particular every rectangular board — and
for every `boosts_remaining`, `player_number` and `turn_count`
(including an empty board, empty or absent trails, and negative or
absent `turn_count`), `choose_move` returns one of the four direction
strings `"UP"`, `"DOWN"`, `"LEFT"`, `"RIGHT"`, and in particular never
a string with a `":BOOST"` suffix. -/
theorem choose_move_totality (state : GameState) (b p : Int)
    (hrows : ∀ row ∈ state.board, (state.board.headD []).length ≤ row.length) :
    ∃ r, choose_move state b p = some r ∧
      r ∈ ["UP", "DOWN", "LEFT", "RIGHT"] := by
  by_cases hb : state.board = []
  · exact ⟨"RIGHT", choose_move_right_degenerate state b p (Or.inl hb), by decide⟩
  by_cases h0 : state.board.headD [] = []
  · exact ⟨"RIGHT", choose_move_right_degenerate state b p (Or.inr h0), by decide⟩
  rw [choose_move_eq_loop state b p hb h0]
  obtain ⟨r, hr, hmem⟩ := chooseSafeLoop_total state.board
    (getHeadPosition state p).1 (getHeadPosition state p).2 hb h0 hrows
    (preferredOrder ((state.turn_count).getD 0))
    (preferredOrder_valid ((state.turn_count).getD 0))
  refine ⟨r, hr, ?_⟩
  rcases hmem with h | h
  · exact preferredOrder_subset ((state.turn_count).getD 0) r h
  · rw [h]; decide

/-- C1 (witness): the amended totality theorem applied to the all-empty
3×3 board. -/
theorem choose_move_totality_witness :
    (∀ row ∈ openState.board, (openState.board.headD []).length ≤ row.length) ∧
    ∃ r, choose_move openState 0 1 = some r ∧
      r ∈ ["UP", "DOWN", "LEFT", "RIGHT"] :=
  ⟨by decide, choose_move_totality openState 0 1 (by decide)⟩

/-- C2: on a non-degenerate board, when exactly one of the four
toroidally adjacent cells of the requesting player's head holds the
marker `0` (direction `d₀`) and the other three hold non-zero markers,
`choose_move` returns `d₀`'s name — whatever the turn counter, the
boost count and the player number. -/
theorem choose_move_single_safe (state : GameState) (b p : Int)
    (hx hy : Int) (d₀ : Dir4)
    (hb : state.board ≠ []) (h0 : state.board.headD [] ≠ [])
    (hhead : getHeadPosition state p = (hx, hy))
    (hsafe : cellAt state.board (hx + (dirVec d₀).1) (hy + (dirVec d₀).2)
      = some 0)
    (hblocked : ∀ d, d ≠ d₀ →
      cellAt state.board (hx + (dirVec d).1) (hy + (dirVec d).2) ≠ some 0 ∧
      cellAt state.board (hx + (dirVec d).1) (hy + (dirVec d).2) ≠ none) :
    choose_move state b p = some (dirName d₀) := by
  have hsafe' : neighborSafe state.board hx hy d₀ = some true := by
    unfold neighborSafe
    rw [isCellSafe_eq_cellAt state.board hb h0, hsafe]
    rfl
  have hfalseDirs : ∀ d, d ≠ d₀ → neighborSafe state.board hx hy d = some false := by
    intro d hd
    obtain ⟨hne0, hnn⟩ := hblocked d hd
    unfold neighborSafe
    rw [isCellSafe_eq_cellAt state.board hb h0]
    cases hcell : cellAt state.board (hx + (dirVec d).1) (hy + (dirVec d).2) with
    | none => exact absurd hcell hnn
    | some v =>
      have hv : ¬v = 0 := by
        intro hv0
        rw [hv0] at hcell
        exact hne0 hcell
      simp [hv]
  rw [choose_move_eq_loop state b p hb h0, hhead]
  exact chooseSafeLoop_finds state.board hx hy d₀ hsafe' hfalseDirs
    (preferredOrder ((state.turn_count).getD 0))
    (preferredOrder_valid ((state.turn_count).getD 0))
    (dirName_mem_preferredOrder ((state.turn_count).getD 0) d₀)

/-- C2 (witness): on `[[9, 0, 9], [1, 1, 1], [9, 1, 9]]` with head
`(1, 1)`, only the cell above is empty and `choose_move` answers
`"UP"`. -/
theorem choose_move_single_safe_witness :
    cellAt oneFreeState.board (1 + (dirVec Dir4.up).1) (1 + (dirVec Dir4.up).2)
      = some 0 ∧
    choose_move oneFreeState 0 1 = some "UP" :=
  ⟨by decide,
   choose_move_single_safe oneFreeState 0 1 1 1 Dir4.up (by decide) (by decide)
     (by decide) (by decide) (by decide)⟩

/-- C4: on a non-degenerate board whose four cells adjacent to the
requesting player's head all hold non-zero markers, `choose_move`
returns `"RIGHT"` for every turn counter, even though the cell to the
right is itself occupied. -/
theorem choose_move_fallback_right (state : GameState) (b p : Int)
    (hx hy : Int)
    (hb : state.board ≠ []) (h0 : state.board.headD [] ≠ [])
    (hhead : getHeadPosition state p = (hx, hy))
    (hblocked : ∀ d,
      cellAt state.board (hx + (dirVec d).1) (hy + (dirVec d).2) ≠ some 0 ∧
      cellAt state.board (hx + (dirVec d).1) (hy + (dirVec d).2) ≠ none) :
    choose_move state b p = some "RIGHT" := by
  have hfalseDirs : ∀ d, neighborSafe state.board hx hy d = some false := by
    intro d
    obtain ⟨hne0, hnn⟩ := hblocked d
    unfold neighborSafe
    rw [isCellSafe_eq_cellAt state.board hb h0]
    cases hcell : cellAt state.board (hx + (dirVec d).1) (hy + (dirVec d).2) with
    | none => exact absurd hcell hnn
    | some v =>
      have hv : ¬v = 0 := by
        intro hv0
        rw [hv0] at hcell
        exact hne0 hcell
      simp [hv]
  rw [choose_move_eq_loop state b p hb h0, hhead]
  exact chooseSafeLoop_fallback state.board hx hy hfalseDirs
    (preferredOrder ((state.turn_count).getD 0))
    (preferredOrder_valid ((state.turn_count).getD 0))

/-- C4 (witness): with the head `(1, 1)` of
`[[0, 1, 0], [1, 1, 1], [0, 1, 0]]` fully surrounded (turn counter 7),
`choose_move` still answers `"RIGHT"`. -/
theorem choose_move_fallback_right_witness :
    getHeadPosition surroundedState 1 = (1, 1) ∧
    choose_move surroundedState 0 1 = some "RIGHT" :=
  ⟨by decide,
   choose_move_fallback_right surroundedState 0 1 1 1 (by decide) (by decide)
     (by decide) (by decide)⟩

/-- C3: for positive board dimensions `W`, `H`, the candidate cell the
direction loop tests is the head plus the direction's unit vector
reduced modulo `W` on the x axis and modulo `H` on the y axis into
`[0, W) × [0, H)`; with the head at `(0, 0)`, `UP` tests `(0, H - 1)`
and `LEFT` tests `(W - 1, 0)` — wrapped, never clamped or rejected. -/
theorem candidateCell_wrapped (W H : Nat) (hW : 0 < W) (hH : 0 < H)
    (hx hy dx dy : Int) :
    (0 ≤ (candidateCell W H hx hy dx dy).1 ∧
      (candidateCell W H hx hy dx dy).1 < (W : Int) ∧
      0 ≤ (candidateCell W H hx hy dx dy).2 ∧
      (candidateCell W H hx hy dx dy).2 < (H : Int)) ∧
    candidateCell W H hx hy dx dy
      = ((hx + dx) % (W : Int), (hy + dy) % (H : Int)) ∧
    candidateCell W H 0 0 (dirVec Dir4.up).1 (dirVec Dir4.up).2
      = (0, (H : Int) - 1) ∧
    candidateCell W H 0 0 (dirVec Dir4.left).1 (dirVec Dir4.left).2
      = ((W : Int) - 1, 0) := by
  have hWi : (0 : Int) < (W : Int) := by exact_mod_cast hW
  have hHi : (0 : Int) < (H : Int) := by exact_mod_cast hH
  have hneg : ∀ n : Int, 0 < n → (0 + (-1 : Int)) % n = n - 1 := by
    intro n hn
    have h2 : ((-1 : Int) + n) % n = (-1 : Int) % n := by
      have h := @Int.add_mul_emod_self_left (-1) n 1
      rw [mul_one] at h
      exact h
    have h4 : (n - 1) % n = n - 1 :=
      Int.emod_eq_of_lt (by omega) (by omega)
    calc (0 + (-1 : Int)) % n = (-1 : Int) % n := by norm_num
      _ = ((-1 : Int) + n) % n := h2.symm
      _ = (n - 1) % n := by rw [show (-1 : Int) + n = n - 1 by ring]
      _ = n - 1 := h4
  refine ⟨⟨Int.emod_nonneg _ (by omega), Int.emod_lt_of_pos _ hWi,
      Int.emod_nonneg _ (by omega), Int.emod_lt_of_pos _ hHi⟩, rfl, ?_, ?_⟩
  · show ((0 + (0 : Int)) % (W : Int), (0 + (-1 : Int)) % (H : Int)) = _
    rw [hneg (H : Int) hHi]
    norm_num
  · show ((0 + (-1 : Int)) % (W : Int), (0 + (0 : Int)) % (H : Int)) = _
    rw [hneg (W : Int) hWi]
    norm_num

/-- C3 (witness): the wraparound theorem applied at `W = 3`, `H = 5`:
from `(0, 0)`, `LEFT` tests `(2, 0)`. -/
theorem candidateCell_wrapped_witness :
    0 < 3 ∧ 0 < 5 ∧
    candidateCell 3 5 0 0 (dirVec Dir4.left).1 (dirVec Dir4.left).2
      = ((3 : Int) - 1, 0) :=
  ⟨by decide, by decide,
   (candidateCell_wrapped 3 5 (by decide) (by decide) 0 0 0 0).2.2.2⟩

/-- C5: for a fixed snapshot, `choose_move` depends on `turn_count`
only through `turn_count mod 4` — turn `t + 4` and turn `t % 4` both
give the same result as turn `t` — and for `turn_count = 0` the
preference order the candidates are tested in is
`RIGHT, DOWN, UP, LEFT`. -/
theorem choose_move_turn_period :
    (∀ (state : GameState) (b p t : Int),
      choose_move (withTurn state (t + 4)) b p
        = choose_move (withTurn state t) b p) ∧
    (∀ (state : GameState) (b p t : Int),
      choose_move (withTurn state (t % 4)) b p
        = choose_move (withTurn state t) b p) ∧
    preferredOrder 0 = ["RIGHT", "DOWN", "UP", "LEFT"] := by
  refine ⟨?_, ?_, by decide⟩
  · intro state b p t
    exact choose_move_turn_congr state b p (t + 4) t (by omega)
  · intro state b p t
    exact choose_move_turn_congr state b p (t % 4) t (by omega)

/-- C6: a degenerate board — no rows at all, or an empty first row so
that the width or height resolves to zero — makes `choose_move` return
`"RIGHT"`, whatever the trails, turn counter, boost count and player
number. -/
theorem choose_move_degenerate_board (state : GameState) (b p : Int)
    (h : state.board = [] ∨ state.board.headD [] = []) :
    choose_move state b p = some "RIGHT" :=
  choose_move_right_degenerate state b p h

/-- C6 (witness): the empty grid yields `"RIGHT"`. -/
theorem choose_move_degenerate_board_witness :
    (emptyBoardState.board = [] ∨ emptyBoardState.board.headD [] = []) ∧
    choose_move emptyBoardState 0 1 = some "RIGHT" :=
  ⟨Or.inl rfl, choose_move_degenerate_board emptyBoardState 0 1 (Or.inl rfl)⟩

/-- C7: the head coordinate `choose_move` works from is the last
element of the requesting player's trail field; when that trail is
empty, or the field is absent altogether, the head is `(0, 0)`. -/
theorem getHeadPosition_last (state : GameState) (p : Int) :
    (∀ (pre : List (Int × Int)) (xy : Int × Int),
      trailField state p = some (pre ++ [xy]) →
      getHeadPosition state p = xy) ∧
    (trailField state p = some [] → getHeadPosition state p = (0, 0)) ∧
    (trailField state p = none → getHeadPosition state p = (0, 0)) := by
  unfold trailField getHeadPosition
  by_cases hp : p = 1 <;> simp only [hp, if_true, if_false, reduceIte]
  · refine ⟨?_, ?_, ?_⟩
    · intro pre xy h
      rw [h]
      simp only [Option.getD_some]
      rw [List.getLast?_append_cons]
      rfl
    · intro h
      rw [h]
      rfl
    · intro h
      rw [h]
      rfl
  · refine ⟨?_, ?_, ?_⟩
    · intro pre xy h
      rw [h]
      simp only [Option.getD_some]
      rw [List.getLast?_append_cons]
      rfl
    · intro h
      rw [h]
      rfl
    · intro h
      rw [h]
      rfl

/-- C7 (witness): player 1's two-element trail `[(1, 2), (3, 4)]` gives
head `(3, 4)`. -/
theorem getHeadPosition_last_witness :
    trailField headState 1 = some ([(1, 2)] ++ [(3, 4)]) ∧
    getHeadPosition headState 1 = (3, 4) :=
  ⟨rfl, (getHeadPosition_last headState 1).1 [(1, 2)] (3, 4) rfl⟩

/-- C8: two calls to `choose_move` that agree on the board, the
requesting player's trail field and the turn counter return the same
move, however much the opponent's trail, the length fields, the alive
flags, the boost fields and the `boosts_remaining` argument differ —
the unused inputs do not influence the output. -/
theorem choose_move_unused_inputs (s1 s2 : GameState) (b1 b2 p : Int)
    (hboard : s1.board = s2.board)
    (htrail : trailField s1 p = trailField s2 p)
    (hturn : s1.turn_count = s2.turn_count) :
    choose_move s1 b1 p = choose_move s2 b2 p := by
  have hhead : getHeadPosition s1 p = getHeadPosition s2 p := by
    unfold trailField at htrail
    unfold getHeadPosition
    by_cases hp : p = 1 <;> simp only [hp, if_true, if_false, reduceIte] at htrail ⊢ <;>
      rw [htrail]
  simp only [choose_move, hboard, hturn, hhead]

/-- C8 (witness): `stateA` and `stateB` differ in the opponent trail
and every unused field, yet yield the same move for different boost
arguments. -/
theorem choose_move_unused_inputs_witness :
    trailField stateA 1 = trailField stateB 1 ∧
    choose_move stateA 3 1 = choose_move stateB 99 1 :=
  ⟨rfl, choose_move_unused_inputs stateA stateB 3 99 1 rfl rfl rfl⟩

/-- C9: any player number other than `1` — `2`, but also `0`, `3` or a
negative number — makes `choose_move` read `agent2_trail` and return
exactly the move it returns for player `2` on the same snapshot. -/
theorem choose_move_player_other (state : GameState) (b p : Int)
    (hp : p ≠ 1) :
    choose_move state b p = choose_move state b 2 := by
  have hhead : getHeadPosition state p = getHeadPosition state 2 := by
    unfold getHeadPosition
    rw [if_neg hp, if_neg (by decide : ¬(2 : Int) = 1)]
  simp only [choose_move, hhead]

/-- C9 (witness): player number `0` behaves exactly like player `2`. -/
theorem choose_move_player_other_witness :
    (0 : Int) ≠ 1 ∧ choose_move headState 0 0 = choose_move headState 0 2 :=
  ⟨by decide, choose_move_player_other headState 0 0 (by decide)⟩

/-- C10: `move_str_to_direction_and_boost` strips and uppercases its
input; a normalized string `D:BOOST` with `D` a `Direction` member name
parses to `(D, true)`, a bare member name to `(D, false)`, and any
string whose direction part is no member name falls back to
`(Direction.RIGHT, false)` — no input raises. -/
theorem move_str_parse_spec (s : String) :
    (∀ d : Direction,
      pyUpper (pyStrip s) = directionName d ++ ":BOOST" →
      move_str_to_direction_and_boost s = (d, true)) ∧
    (∀ d : Direction,
      pyUpper (pyStrip s) = directionName d →
      move_str_to_direction_and_boost s = (d, false)) ∧
    (directionByName (normalizedDirPart s) = none →
      move_str_to_direction_and_boost s = (Direction.RIGHT, false)) := by
  refine ⟨?_, ?_, ?_⟩
  · intro d h
    cases d <;>
      · simp only [directionName] at h
        simp only [move_str_to_direction_and_boost, h]
        decide
  · intro d h
    cases d <;>
      · simp only [directionName] at h
        simp only [move_str_to_direction_and_boost, h]
        decide
  · intro h
    simp only [normalizedDirPart] at h
    simp only [move_str_to_direction_and_boost, h]

set_option maxRecDepth 100000 in
/-- C10 (witness): `" up:boost "` parses to `(UP, true)`, `"left"` to
`(LEFT, false)` and `"go west"` to the `(RIGHT, false)` fallback. -/
theorem move_str_parse_spec_witness :
    pyUpper (pyStrip " up:boost ") = directionName Direction.UP ++ ":BOOST" ∧
    move_str_to_direction_and_boost " up:boost " = (Direction.UP, true) ∧
    move_str_to_direction_and_boost "left" = (Direction.LEFT, false) ∧
    move_str_to_direction_and_boost "go west" = (Direction.RIGHT, false) :=
  ⟨by decide,
   (move_str_parse_spec " up:boost ").1 Direction.UP (by decide),
   (move_str_parse_spec "left").2.1 Direction.LEFT (by decide),
   (move_str_parse_spec "go west").2.2 (by decide)⟩
